import Mathlib

/-!
# senbara-forms: data portability and session authorization

A shallow embedding of `pkg/persisters/userdata.go` (export walker, delete-all and
the import transaction) and `pkg/controllers/authn.go` (session authorizer), with
theorems about the embedded functions.

Conventions of the embedding:

* Go `error` values are `Option Error` (`none` is `nil`); `(T, error)` results are
  `Except Error T`.
* Calls to collaborators that live outside these files (the SQL queries, the
  caller-supplied sinks, the response writer) are appended to an explicit log, so
  that "which call was issued, with which argument, in which order" is a value.
* `int32` identifiers are only stored, copied and compared, never computed with,
  so they are integers without a wrap-around.
-/

namespace Senbara

/-! ## Errors -/

/-- Go error values. `join a b` is `errors.Join(a, b)` for two non-nil errors;
`other` stands for an error produced by a collaborator (database, provider). -/
inductive Error where
  | ErrContactDoesNotExist
  | ErrNoCookie
  | errCouldNotLocalize
  | errCouldNotLogin
  | errEmailNotVerified
  | errCouldNotRenderTemplate
  | errCouldNotFetchFromDB
  | errCouldNotParseForm
  | errInvalidForm
  | errCouldNotInsertIntoDB
  | errCouldNotDeleteFromDB
  | errCouldNotUpdateInDB
  | errInvalidQueryParam
  | other (msg : String)
  | join (a b : Error)
  deriving DecidableEq, Repr

/-- Go `errors.Is(err, target)` for comparable sentinel targets: equality, or, for a
joined error, a match in one of the joined errors. -/
def Error.Is : Error → Error → Bool
  | .join a b, target => (Error.join a b == target) || a.Is target || b.Is target
  | e, target => e == target

/-! ## Models (`pkg/models`) -/

/-- Go `int32`, used for identifiers and ratings. -/
abbrev int32 := Int

/-- Go `time.Time`, as nanoseconds since the epoch. -/
structure Time where
  nsec : Int
  deriving DecidableEq, Repr

/-- Go `sql.NullInt32`. -/
structure NullInt32 where
  Int32 : int32
  Valid : Bool
  deriving DecidableEq, Repr

/-- Row of `GetJournalEntriesExportForNamespace`. -/
structure JournalEntryRow where
  ID : int32
  Title : String
  Date : Time
  Body : String
  Rating : int32
  Namespace : String
  deriving DecidableEq, Repr

/-- Row of `GetContactsExportForNamespace`. -/
structure ContactRow where
  ID : int32
  FirstName : String
  LastName : String
  Nickname : String
  Email : String
  Pronouns : String
  Namespace : String
  Birthday : Option Time
  Address : String
  Notes : String
  deriving DecidableEq, Repr

/-- Row of `GetDebtsExportForNamespace`. -/
structure DebtRow where
  ID : int32
  Amount : Int
  Currency : String
  Description : String
  ContactID : NullInt32
  deriving DecidableEq, Repr

/-- Row of `GetActivitiesExportForNamespace`. -/
structure ActivityRow where
  ID : int32
  Name : String
  Date : Time
  Description : String
  ContactID : NullInt32
  deriving DecidableEq, Repr

structure ExportedJournalEntry where
  ID : int32
  Title : String
  Date : Time
  Body : String
  Rating : int32
  Namespace : String
  deriving DecidableEq, Repr

structure ExportedContact where
  ID : int32
  FirstName : String
  LastName : String
  Nickname : String
  Email : String
  Pronouns : String
  Namespace : String
  Birthday : Option Time
  Address : String
  Notes : String
  deriving DecidableEq, Repr

structure ExportedDebt where
  ID : int32
  Amount : Int
  Currency : String
  Description : String
  ContactID : NullInt32
  deriving DecidableEq, Repr

structure ExportedActivity where
  ID : int32
  Name : String
  Date : Time
  Description : String
  ContactID : NullInt32
  deriving DecidableEq, Repr

structure CreateJournalEntryParams where
  Title : String
  Body : String
  Rating : int32
  Namespace : String
  deriving DecidableEq, Repr

structure CreateContactParams where
  FirstName : String
  LastName : String
  Nickname : String
  Email : String
  Pronouns : String
  Namespace : String
  deriving DecidableEq, Repr

/-- Parameters of the `CreateDebt` query; `ID` is the contact the debt belongs to. -/
structure CreateDebtParams where
  ID : int32
  Amount : Int
  Currency : String
  Description : String
  Namespace : String
  deriving DecidableEq, Repr

/-- Parameters of the `CreateActivity` query; `ID` is the contact the activity
belongs to. -/
structure CreateActivityParams where
  ID : int32
  Name : String
  Date : Time
  Description : String
  Namespace : String
  deriving DecidableEq, Repr

/-- The four entity tables. -/
inductive Table where
  | JournalEntries
  | Contacts
  | Debts
  | Activities
  deriving DecidableEq, Repr

/-- One call made by the persister, with its argument and its outcome: a
transaction operation, a query, or an invocation of a caller-supplied sink. -/
inductive Event where
  | Begin (err : Option Error)
  | Commit (err : Option Error)
  | Rollback
  | Get (t : Table) (ns : String) (err : Option Error)
  | Delete (t : Table) (ns : String) (err : Option Error)
  | CreateJournalEntry (arg : CreateJournalEntryParams) (err : Option Error)
  | CreateContact (arg : CreateContactParams) (err : Option Error)
  | CreateDebt (arg : CreateDebtParams) (err : Option Error)
  | CreateActivity (arg : CreateActivityParams) (err : Option Error)
  | onJournalEntry (journalEntry : ExportedJournalEntry) (err : Option Error)
  | onContact (contact : ExportedContact) (err : Option Error)
  | onDebt (debt : ExportedDebt) (err : Option Error)
  | onActivity (activity : ExportedActivity) (err : Option Error)
  deriving DecidableEq, Repr

/-- The error carried by an `Except`, as a Go `error` value. -/
def errOf {α : Type} : Except Error α → Option Error
  | .ok _ => none
  | .error e => some e

/-! ## The import transaction (`CreateUserData`) -/

/-- The database as the import sees it. One import issues any number of inserts, so
the outcome of an insert may depend on every call logged before it. -/
structure ImportDB where
  Begin : Option Error
  Commit : List Event → Option Error
  Rollback : List Event → Option Error
  CreateJournalEntry : List Event → CreateJournalEntryParams → Except Error int32
  CreateContact : List Event → CreateContactParams → Except Error int32
  CreateDebt : List Event → CreateDebtParams → Except Error int32
  CreateActivity : List Event → CreateActivityParams → Except Error int32

/-- The variables the closures returned by `CreateUserData` share: the map
`journalEntryIDMap` (the newest binding of a key first) and the log of the calls made
on the transaction. -/
structure ImportState where
  journalEntryIDMap : List (int32 × int32)
  log : List Event
  deriving DecidableEq, Repr

/-- The closure `createJournalEntry` of `CreateUserData`. -/
def createJournalEntry (db : ImportDB) (ns : String) (journalEntry : ExportedJournalEntry)
    (s : ImportState) : Option Error × ImportState :=
  let arg : CreateJournalEntryParams :=
    { Title := journalEntry.Title, Body := journalEntry.Body, Rating := journalEntry.Rating,
      Namespace := ns }
  match db.CreateJournalEntry s.log arg with
  | .error err => (some err, { s with log := s.log ++ [Event.CreateJournalEntry arg (some err)] })
  | .ok id =>
    (none, { journalEntryIDMap := (journalEntry.ID, id) :: s.journalEntryIDMap,
             log := s.log ++ [Event.CreateJournalEntry arg none] })

/-- The closure `createContact` of `CreateUserData`. -/
def createContact (db : ImportDB) (ns : String) (contact : ExportedContact)
    (s : ImportState) : Option Error × ImportState :=
  let arg : CreateContactParams :=
    { FirstName := contact.FirstName, LastName := contact.LastName,
      Nickname := contact.Nickname, Email := contact.Email, Pronouns := contact.Pronouns,
      Namespace := ns }
  match db.CreateContact s.log arg with
  | .error err => (some err, { s with log := s.log ++ [Event.CreateContact arg (some err)] })
  | .ok _ => (none, { s with log := s.log ++ [Event.CreateContact arg none] })

/-- The closure `createDebt` of `CreateUserData`. -/
def createDebt (db : ImportDB) (ns : String) (debt : ExportedDebt)
    (s : ImportState) : Option Error × ImportState :=
  if !debt.ContactID.Valid then
    (some Error.ErrContactDoesNotExist, s)
  else
    match s.journalEntryIDMap.lookup debt.ContactID.Int32 with
    | none => (some Error.ErrContactDoesNotExist, s)
    | some actualContactID =>
      let arg : CreateDebtParams :=
        { ID := actualContactID, Amount := debt.Amount, Currency := debt.Currency,
          Description := debt.Description, Namespace := ns }
      match db.CreateDebt s.log arg with
      | .error err => (some err, { s with log := s.log ++ [Event.CreateDebt arg (some err)] })
      | .ok _ => (none, { s with log := s.log ++ [Event.CreateDebt arg none] })

/-- The closure `createActivity` of `CreateUserData`. -/
def createActivity (db : ImportDB) (ns : String) (activity : ExportedActivity)
    (s : ImportState) : Option Error × ImportState :=
  if !activity.ContactID.Valid then
    (some Error.ErrContactDoesNotExist, s)
  else
    match s.journalEntryIDMap.lookup activity.ContactID.Int32 with
    | none => (some Error.ErrContactDoesNotExist, s)
    | some actualContactID =>
      let arg : CreateActivityParams :=
        { ID := actualContactID, Name := activity.Name, Date := activity.Date,
          Description := activity.Description, Namespace := ns }
      match db.CreateActivity s.log arg with
      | .error err =>
        (some err, { s with log := s.log ++ [Event.CreateActivity arg (some err)] })
      | .ok _ => (none, { s with log := s.log ++ [Event.CreateActivity arg none] })

/-- What `CreateUserData` returns: the four sinks, `commit` and `rollback`. -/
structure Import where
  createJournalEntry : ExportedJournalEntry → ImportState → Option Error × ImportState
  createContact : ExportedContact → ImportState → Option Error × ImportState
  createDebt : ExportedDebt → ImportState → Option Error × ImportState
  createActivity : ExportedActivity → ImportState → Option Error × ImportState
  commit : ImportState → Option Error × ImportState
  rollback : ImportState → Option Error × ImportState

/-- `Persister.CreateUserData`: the returned functions, the error, and the initial
shared state. When `Begin` fails the functions are the no-ops set at the top of the
body. -/
def CreateUserData (db : ImportDB) (ns : String) : Import × Option Error × ImportState :=
  match db.Begin with
  | some err =>
    ({ createJournalEntry := fun _ s => (none, s)
       createContact := fun _ s => (none, s)
       createDebt := fun _ s => (none, s)
       createActivity := fun _ s => (none, s)
       commit := fun s => (none, s)
       rollback := fun s => (none, s) },
     some err,
     { journalEntryIDMap := [], log := [Event.Begin (some err)] })
  | none =>
    ({ createJournalEntry := createJournalEntry db ns
       createContact := createContact db ns
       createDebt := createDebt db ns
       createActivity := createActivity db ns
       commit := fun s =>
         (db.Commit s.log, { s with log := s.log ++ [Event.Commit (db.Commit s.log)] })
       rollback := fun s => (db.Rollback s.log, { s with log := s.log ++ [Event.Rollback] }) },
     none,
     { journalEntryIDMap := [], log := [Event.Begin none] })

/-! ## The export walker (`GetUserData`) -/

/-- The database as one export sees it. Each query is issued at most once per
export, so its outcome is a function of its argument. -/
structure ExportDB where
  Begin : Option Error
  GetJournalEntriesExportForNamespace : String → Except Error (List JournalEntryRow)
  GetContactsExportForNamespace : String → Except Error (List ContactRow)
  GetDebtsExportForNamespace : String → Except Error (List DebtRow)
  GetActivitiesExportForNamespace : String → Except Error (List ActivityRow)

/-- The caller-supplied sinks. A sink is a closure of the caller and may be invoked
many times, so its outcome may depend on every call logged before it. -/
structure Sinks where
  onJournalEntry : List Event → ExportedJournalEntry → Option Error
  onContact : List Event → ExportedContact → Option Error
  onDebt : List Event → ExportedDebt → Option Error
  onActivity : List Event → ExportedActivity → Option Error

/-- The record built from a journal entry row in the first loop. -/
def exportJournalEntry (journalEntry : JournalEntryRow) : ExportedJournalEntry :=
  { ID := journalEntry.ID, Title := journalEntry.Title, Date := journalEntry.Date,
    Body := journalEntry.Body, Rating := journalEntry.Rating,
    Namespace := journalEntry.Namespace }

/-- The record built from a contact row in the second loop. -/
def exportContact (contact : ContactRow) : ExportedContact :=
  { ID := contact.ID, FirstName := contact.FirstName, LastName := contact.LastName,
    Nickname := contact.Nickname, Email := contact.Email, Pronouns := contact.Pronouns,
    Namespace := contact.Namespace, Birthday := contact.Birthday, Address := contact.Address,
    Notes := contact.Notes }

/-- The record built from a debt row in the third loop. -/
def exportDebt (debt : DebtRow) : ExportedDebt :=
  { ID := debt.ID, Amount := debt.Amount, Currency := debt.Currency,
    Description := debt.Description, ContactID := debt.ContactID }

/-- The record built from an activity row in the fourth loop. -/
def exportActivity (activity : ActivityRow) : ExportedActivity :=
  { ID := activity.ID, Name := activity.Name, Date := activity.Date,
    Description := activity.Description, ContactID := activity.ContactID }

/-- The loop `for _, journalEntry := range journalEntries`, returning at the first
sink error. -/
def forJournalEntries (sinks : Sinks) :
    List JournalEntryRow → List Event → Option Error × List Event
  | [], log => (none, log)
  | journalEntry :: rest, log =>
    match sinks.onJournalEntry log (exportJournalEntry journalEntry) with
    | some err =>
      (some err, log ++ [Event.onJournalEntry (exportJournalEntry journalEntry) (some err)])
    | none =>
      forJournalEntries sinks rest
        (log ++ [Event.onJournalEntry (exportJournalEntry journalEntry) none])

/-- The loop `for _, contact := range contacts`. -/
def forContacts (sinks : Sinks) : List ContactRow → List Event → Option Error × List Event
  | [], log => (none, log)
  | contact :: rest, log =>
    match sinks.onContact log (exportContact contact) with
    | some err => (some err, log ++ [Event.onContact (exportContact contact) (some err)])
    | none => forContacts sinks rest (log ++ [Event.onContact (exportContact contact) none])

/-- The loop `for _, debt := range debts`. -/
def forDebts (sinks : Sinks) : List DebtRow → List Event → Option Error × List Event
  | [], log => (none, log)
  | debt :: rest, log =>
    match sinks.onDebt log (exportDebt debt) with
    | some err => (some err, log ++ [Event.onDebt (exportDebt debt) (some err)])
    | none => forDebts sinks rest (log ++ [Event.onDebt (exportDebt debt) none])

/-- The loop `for _, activity := range activities`. -/
def forActivities (sinks : Sinks) : List ActivityRow → List Event → Option Error × List Event
  | [], log => (none, log)
  | activity :: rest, log =>
    match sinks.onActivity log (exportActivity activity) with
    | some err => (some err, log ++ [Event.onActivity (exportActivity activity) (some err)])
    | none => forActivities sinks rest (log ++ [Event.onActivity (exportActivity activity) none])

/-- The body of `GetUserData` after `Begin` succeeded, up to its `return`. -/
def getUserDataBody (db : ExportDB) (ns : String) (sinks : Sinks) (log : List Event) :
    Option Error × List Event :=
  match db.GetJournalEntriesExportForNamespace ns with
  | .error err => (some err, log ++ [Event.Get .JournalEntries ns (some err)])
  | .ok journalEntries =>
    match forJournalEntries sinks journalEntries (log ++ [Event.Get .JournalEntries ns none]) with
    | (some err, log) => (some err, log)
    | (none, log) =>
      match db.GetContactsExportForNamespace ns with
      | .error err => (some err, log ++ [Event.Get .Contacts ns (some err)])
      | .ok contacts =>
        match forContacts sinks contacts (log ++ [Event.Get .Contacts ns none]) with
        | (some err, log) => (some err, log)
        | (none, log) =>
          match db.GetDebtsExportForNamespace ns with
          | .error err => (some err, log ++ [Event.Get .Debts ns (some err)])
          | .ok debts =>
            match forDebts sinks debts (log ++ [Event.Get .Debts ns none]) with
            | (some err, log) => (some err, log)
            | (none, log) =>
              match db.GetActivitiesExportForNamespace ns with
              | .error err => (some err, log ++ [Event.Get .Activities ns (some err)])
              | .ok activities =>
                forActivities sinks activities (log ++ [Event.Get .Activities ns none])

/-- `Persister.GetUserData`: the returned error and the log of the calls made. The
deferred `tx.Rollback()` runs on every return after `Begin` succeeded. -/
def GetUserData (db : ExportDB) (ns : String) (sinks : Sinks) : Option Error × List Event :=
  match db.Begin with
  | some err => (some err, [Event.Begin (some err)])
  | none =>
    let r := getUserDataBody db ns sinks [Event.Begin none]
    (r.1, r.2 ++ [Event.Rollback])

/-! ## Delete-all (`DeleteUserData`) -/

/-- The database as one delete-all sees it; each operation is issued at most once. -/
structure DeleteDB where
  Begin : Option Error
  DeleteActivitiesForNamespace : String → Option Error
  DeleteDebtsForNamespace : String → Option Error
  DeleteContactsForNamespace : String → Option Error
  DeleteJournalEntriesForNamespace : String → Option Error
  Commit : Option Error

/-- The body of `DeleteUserData` after `Begin` succeeded, up to its `return`. -/
def deleteUserDataBody (db : DeleteDB) (ns : String) (log : List Event) :
    Option Error × List Event :=
  match db.DeleteActivitiesForNamespace ns with
  | some err => (some err, log ++ [Event.Delete .Activities ns (some err)])
  | none =>
    match db.DeleteDebtsForNamespace ns with
    | some err =>
      (some err, log ++ [Event.Delete .Activities ns none, Event.Delete .Debts ns (some err)])
    | none =>
      match db.DeleteContactsForNamespace ns with
      | some err =>
        (some err, log ++ [Event.Delete .Activities ns none, Event.Delete .Debts ns none,
          Event.Delete .Contacts ns (some err)])
      | none =>
        match db.DeleteJournalEntriesForNamespace ns with
        | some err =>
          (some err, log ++ [Event.Delete .Activities ns none, Event.Delete .Debts ns none,
            Event.Delete .Contacts ns none, Event.Delete .JournalEntries ns (some err)])
        | none =>
          (db.Commit, log ++ [Event.Delete .Activities ns none, Event.Delete .Debts ns none,
            Event.Delete .Contacts ns none, Event.Delete .JournalEntries ns none,
            Event.Commit db.Commit])

/-- `Persister.DeleteUserData`: the returned error and the log of the calls made. The
deferred `tx.Rollback()` runs on every return after `Begin` succeeded. -/
def DeleteUserData (db : DeleteDB) (ns : String) : Option Error × List Event :=
  match db.Begin with
  | some err => (some err, [Event.Begin (some err)])
  | none =>
    let r := deleteUserDataBody db ns [Event.Begin none]
    (r.1, r.2 ++ [Event.Rollback])

/-! ## The session authorizer (`authorize`) -/

/-- Go `unicode.IsSpace`: the code points with the Unicode White_Space property. -/
def isSpace (c : Char) : Bool :=
  c.toNat ∈ [0x09, 0x0A, 0x0B, 0x0C, 0x0D, 0x20, 0x85, 0xA0, 0x1680, 0x2028, 0x2029, 0x202F,
    0x205F, 0x3000] || (0x2000 ≤ c.toNat && c.toNat ≤ 0x200A)

/-- Go `strings.TrimSpace`: the string without its leading and trailing white space. -/
def TrimSpace (s : String) : String :=
  String.mk ((s.data.dropWhile isSpace).reverse.dropWhile isSpace).reverse

def StatusOK : Int := 200
def StatusFound : Int := 302
def StatusTemporaryRedirect : Int := 307
def StatusUnauthorized : Int := 401
def StatusInternalServerError : Int := 500

/-- Go `time.Duration`, in nanoseconds. -/
def Hour : Int := 3600000000000

/-- Go `Time.Add`. -/
def Time.Add (t : Time) (d : Int) : Time := ⟨t.nsec + d⟩

/-- Go `http.SameSite`; `unset` is the zero value of the field. -/
inductive SameSite where
  | unset
  | SameSiteDefaultMode
  | SameSiteLaxMode
  | SameSiteStrictMode
  | SameSiteNoneMode
  deriving DecidableEq, Repr

/-- Go `http.Cookie`, with the fields these files set; a field that a literal leaves
out has its zero value. -/
structure Cookie where
  Name : String
  Value : String
  Path : String := ""
  Expires : Time := ⟨0⟩
  MaxAge : Int := 0
  Secure : Bool := false
  HttpOnly : Bool := false
  SameSite : SameSite := SameSite.unset
  deriving DecidableEq, Repr

/-- Go `url.URL`, with the components these files touch. -/
structure URL where
  Scheme : String
  Host : String
  Path : String
  RawQuery : String
  deriving DecidableEq, Repr

/-- Go `url.Values`. -/
abbrev Values := List (String × List String)

/-- Go `Values.Set`: the key is bound to the single value. -/
def Values.Set (v : Values) (key value : String) : Values :=
  (key, [value]) :: v.filter (fun kv => kv.1 != key)

/-- Go `Values.Get`: the first value of the key, or the empty string. -/
def Values.Get (v : Values) (key : String) : String :=
  match v.lookup key with
  | some (value :: _) => value
  | _ => ""

/-- The functions of Go's `net/url` that `authn.go` calls. -/
structure NetURL where
  QueryEscape : String → String
  QueryUnescape : String → Except Error String
  Parse : String → Except Error URL
  Query : URL → Values
  Encode : Values → String
  JoinPath : URL → List String → URL
  String : URL → String

/-- A `*gotext.Locale`: `Get` returns the translation of a message, or the message
itself when there is none. -/
structure Locale where
  lang : String
  translations : List (String × String)
  deriving DecidableEq, Repr

def Locale.Get (l : Locale) (str : String) : String :=
  (l.translations.lookup str).getD str

structure userData where
  Email : String := ""
  LogoutURL : String := ""
  Locale : Option Locale := none
  deriving DecidableEq, Repr

structure pageData where
  toUserData : userData := {}
  Page : String := ""
  PrivacyURL : String := ""
  ImprintURL : String := ""
  BackURL : String := ""
  deriving DecidableEq, Repr

structure redirectData where
  toPageData : pageData := {}
  Href : String := ""
  RequiresPrivacyPolicyConsent : Bool := false
  deriving DecidableEq, Repr

/-- A row of a model of `pkg/models` that is declared outside these files (a journal
entry, a contact, an activity with its contact): its fields by name. -/
structure Record where
  fields : List (String × String)
  deriving DecidableEq, Repr

/-- The field of a row, such as `journalEntry.Title`. -/
def Record.field (row : Record) (name : String) : String :=
  (row.fields.lookup name).getD ""

structure journalData where
  toPageData : pageData := {}
  Entries : List Record := []
  deriving DecidableEq, Repr

structure journalEntryData where
  toPageData : pageData := {}
  Entry : Record := ⟨[]⟩
  deriving DecidableEq, Repr

structure contactData where
  toPageData : pageData := {}
  Entry : Record := ⟨[]⟩
  deriving DecidableEq, Repr

structure activityData where
  toPageData : pageData := {}
  Entry : Record := ⟨[]⟩
  deriving DecidableEq, Repr

/-- The `data any` argument of `ExecuteTemplate` in `activities.go` and `journal.go`. -/
inductive PageContent where
  | pageData (data : pageData)
  | journalData (data : journalData)
  | journalEntryData (data : journalEntryData)
  | contactData (data : contactData)
  | activityData (data : activityData)
  deriving DecidableEq, Repr

/-- The `*http.Request`, as far as `authn.go` reads it: headers under their canonical
names, the cookies sent, the parsed form values, and the URL. -/
structure Request where
  Header : List (String × String)
  Cookies : List Cookie
  Form : List (String × String)
  URL : URL
  deriving DecidableEq, Repr

/-- Go `r.Header.Get`: the first value of the header, or the empty string. -/
def Request.HeaderGet (r : Request) (key : String) : String :=
  (r.Header.lookup key).getD ""

/-- Go `r.FormValue`: the first value of the form field, or the empty string. -/
def Request.FormValue (r : Request) (key : String) : String :=
  (r.Form.lookup key).getD ""

/-- Go `r.Cookie`: the first cookie of that name, or `http.ErrNoCookie` when there is
none or the name is empty. -/
def Request.Cookie (r : Request) (name : String) : Except Error Cookie :=
  if name == "" then .error Error.ErrNoCookie
  else
    match r.Cookies.find? (fun c => c.Name == name) with
    | some c => .ok c
    | none => .error Error.ErrNoCookie

/-- A Go `interface{}` value, as far as a `.(string)` assertion tells values apart. -/
inductive Any where
  | nil
  | string (s : String)
  | other (repr : String)
  deriving DecidableEq, Repr

/-- The type assertion `v.(string)`: the string, or `none` when `ok` is false. -/
def Any.asString : Any → Option String
  | .string s => some s
  | _ => none

/-- Go `oauth2.Token`. -/
structure Token where
  RefreshToken : String
  Expiry : Time
  raw : List (String × Any)
  deriving DecidableEq, Repr

/-- Go `Token.Extra`. -/
def Token.Extra (t : Token) (key : String) : Any :=
  (t.raw.lookup key).getD Any.nil

/-- The two claims `authorize` decodes. -/
structure Claims where
  Email : String
  EmailVerified : Bool
  deriving DecidableEq, Repr

/-- A verified `*oidc.IDToken`: `Claims` is the outcome of decoding its claims. -/
structure IDToken where
  Claims : Except Error Claims

/-- The `*oidc.IDTokenVerifier`. -/
structure Verifier where
  Verify : String → Except Error IDToken

/-- The `*oauth2.Config`: `TokenSource refreshToken` is
`TokenSource(ctx, &oauth2.Token{RefreshToken: refreshToken}).Token()`. -/
structure Config where
  AuthCodeURL : String → String
  TokenSource : String → Except Error Token
  Exchange : String → Except Error Token

/-- The `*template.Template`. -/
structure Template where
  ExecuteTemplate : String → redirectData → Option Error

/-- The `Controller`, with the two cookie names (package constants declared outside
these files) and its method `localize` (defined outside these files) as fields. -/
structure Controller where
  tpl : Template
  privacyURL : String
  imprintURL : String
  oidcIssuer : String
  oidcRedirectURL : String
  config : Config
  verifier : Verifier
  refreshTokenKey : String
  idTokenKey : String
  localize : Request → Except Error Locale

/-- One write on the `http.ResponseWriter`. `Error err code` is
`http.Error(w, err.Error(), code)`; `ExecutePage` is `ExecuteTemplate` at the data of a
page of `activities.go` or `journal.go`. -/
inductive Effect where
  | Redirect (url : String) (code : Int)
  | SetCookie (cookie : Cookie)
  | ExecuteTemplate (name : String) (data : redirectData)
  | Error (err : Error) (code : Int)
  | ExecutePage (name : String) (data : PageContent)
  deriving DecidableEq, Repr

/-- The `http.ResponseWriter`: the writes made on it, oldest first. -/
abbrev ResponseWriter := List Effect

/-- The logout URL built at the end of `authorize` (the same statements in both
modes): the issuer URL with the two query parameters set and `oidc/logout`
appended. -/
def logoutURL (url : NetURL) (b : Controller) (idToken : String) : Except Error String :=
  match url.Parse b.oidcIssuer with
  | .error err => .error err
  | .ok logoutURL =>
    let q := url.Query logoutURL
    let q := q.Set "id_token_hint" idToken
    let q := q.Set "post_logout_redirect_uri" b.oidcRedirectURL
    let logoutURL := { logoutURL with RawQuery := url.Encode q }
    let logoutURL := url.JoinPath logoutURL ["oidc", "logout"]
    .ok (url.String logoutURL)

/-- The branch `if w == nil` of `authorize`. -/
def authorizeProbe (url : NetURL) (b : Controller) (r : Request) :
    Bool × userData × Int × Option Error :=
  match b.localize r with
  | .error err => (false, {}, StatusInternalServerError, some (.join .errCouldNotLocalize err))
  | .ok locale =>
    match r.Cookie b.refreshTokenKey with
    | .error _ => (false, { Locale := some locale }, StatusOK, none)
    | .ok _ =>
      match r.Cookie b.idTokenKey with
      | .error _ => (false, { Locale := some locale }, StatusOK, none)
      | .ok it =>
        match b.verifier.Verify it.Value with
        | .error _ => (false, { Locale := some locale }, StatusOK, none)
        | .ok id =>
          match id.Claims with
          | .error err => (false, {}, StatusUnauthorized, some (.join .errCouldNotLogin err))
          | .ok claims =>
            if !claims.EmailVerified then
              (false, { Locale := some locale }, StatusOK, none)
            else
              match logoutURL url b it.Value with
              | .error err => (false, {}, StatusUnauthorized, some (.join .errCouldNotLogin err))
              | .ok logoutURL =>
                (false, { Email := claims.Email, LogoutURL := logoutURL, Locale := some locale },
                  StatusOK, none)

/-- The end of `authorize` in enforcing mode, from `var claims` on, reached with the
identity credential `idToken` that verified as `id`. -/
def authorizeClaims (url : NetURL) (b : Controller) (locale : Locale) (idToken : String)
    (id : IDToken) : Bool × userData × Int × Option Error :=
  match id.Claims with
  | .error err => (false, {}, StatusUnauthorized, some (.join .errCouldNotLogin err))
  | .ok claims =>
    if !claims.EmailVerified then
      (false, {}, StatusUnauthorized, some (.join .errCouldNotLogin .errEmailNotVerified))
    else
      match logoutURL url b idToken with
      | .error err => (false, {}, StatusUnauthorized, some (.join .errCouldNotLogin err))
      | .ok logoutURL =>
        (false, { Email := claims.Email, LogoutURL := logoutURL, Locale := some locale },
          StatusOK, none)

/-- The data of the consent prompt rendered by `authorize`. -/
def consentData (b : Controller) (locale : Locale) : redirectData :=
  { toPageData :=
      { toUserData := { Locale := some locale }
        Page := locale.Get "Privacy policy consent"
        PrivacyURL := b.privacyURL
        ImprintURL := b.imprintURL }
    RequiresPrivacyPolicyConsent := true }

/-- The first statements of `authorize`: the return address is the `Referer` header,
or `/` when the header is blank. -/
def returnURL (r : Request) : String :=
  if TrimSpace (r.HeaderGet "Referer") == "" then "/" else r.HeaderGet "Referer"

/-- The refresh-credential cookie `authorize` writes at time `now`. -/
def refreshTokenCookie (b : Controller) (now : Time) (refreshToken : String) : Cookie :=
  { Name := b.refreshTokenKey
    Value := refreshToken
    Expires := now.Add (Hour * 24 * 365)
    HttpOnly := true
    Secure := true
    SameSite := SameSite.SameSiteStrictMode
    Path := "/" }

/-- The identity-credential cookie `authorize` writes. -/
def idTokenCookie (b : Controller) (idToken : String) (expiry : Time) : Cookie :=
  { Name := b.idTokenKey
    Value := idToken
    Expires := expiry
    HttpOnly := true
    Secure := true
    SameSite := SameSite.SameSiteStrictMode
    Path := "/" }

/-- `Controller.authorize` at time `now`: the four results and the response writer
after the call. `w = none` is the nil writer of probe mode. -/
def authorize (url : NetURL) (b : Controller) (now : Time) (w : Option ResponseWriter)
    (r : Request) : (Bool × userData × Int × Option Error) × Option ResponseWriter :=
  let returnURL := returnURL r
  match w with
  | none => (authorizeProbe url b r, none)
  | some w =>
    match b.localize r with
    | .error err =>
      ((false, {}, StatusInternalServerError, some (.join .errCouldNotLocalize err)), some w)
    | .ok locale =>
      match r.Cookie b.refreshTokenKey with
      | .error err =>
        if err.Is .ErrNoCookie then
          if TrimSpace (r.FormValue "consent") == "on" then
            ((true, {}, StatusTemporaryRedirect, none),
              some (w ++ [Effect.Redirect (b.config.AuthCodeURL (url.QueryEscape returnURL))
                StatusFound]))
          else
            match b.tpl.ExecuteTemplate "redirect.html" (consentData b locale) with
            | some err =>
              ((false, {}, StatusInternalServerError,
                  some (.join .errCouldNotRenderTemplate err)),
                some (w ++ [Effect.ExecuteTemplate "redirect.html" (consentData b locale)]))
            | none =>
              ((true, {}, StatusTemporaryRedirect, none),
                some (w ++ [Effect.ExecuteTemplate "redirect.html" (consentData b locale)]))
        else
          ((false, {}, StatusUnauthorized, some (.join .errCouldNotLogin err)), some w)
      | .ok rt =>
        match r.Cookie b.idTokenKey with
        | .error err =>
          if err.Is .ErrNoCookie then
            ((true, {}, StatusTemporaryRedirect, none),
              some (w ++ [Effect.Redirect
                (b.config.AuthCodeURL (url.QueryEscape (url.String r.URL))) StatusFound]))
          else
            ((false, {}, StatusUnauthorized, some (.join .errCouldNotLogin err)), some w)
        | .ok it =>
          match b.verifier.Verify it.Value with
          | .ok id => (authorizeClaims url b locale it.Value id, some w)
          | .error _ =>
            match b.config.TokenSource rt.Value with
            | .error _ =>
              ((true, {}, StatusOK, none),
                some (w ++ [Effect.Redirect (b.config.AuthCodeURL (url.QueryEscape returnURL))
                  StatusFound]))
            | .ok oauth2Token =>
              match (oauth2Token.Extra "id_token").asString with
              | none =>
                ((true, {}, StatusOK, none),
                  some (w ++ [Effect.Redirect
                    (b.config.AuthCodeURL (url.QueryEscape returnURL)) StatusFound]))
              | some idToken =>
                match b.verifier.Verify idToken with
                | .error _ =>
                  ((true, {}, StatusOK, none),
                    some (w ++ [Effect.Redirect
                      (b.config.AuthCodeURL (url.QueryEscape returnURL)) StatusFound]))
                | .ok id =>
                  let w :=
                    if oauth2Token.RefreshToken != "" then
                      w ++ [Effect.SetCookie
                        (refreshTokenCookie b now oauth2Token.RefreshToken)]
                    else w
                  let w := w ++ [Effect.SetCookie (idTokenCookie b idToken oauth2Token.Expiry)]
                  (authorizeClaims url b locale idToken id, some w)

/-! ## Sign-in and sign-out (`HandleAuthorize`) -/

/-- The data of the page rendered by `HandleAuthorize` after signing in or out. -/
def signingData (b : Controller) (locale : Locale) (page : String) (returnURL : String) :
    redirectData :=
  { toPageData :=
      { toUserData := { Locale := some locale }
        Page := locale.Get page
        PrivacyURL := b.privacyURL
        ImprintURL := b.imprintURL }
    Href := returnURL }

/-- The statements that close `HandleAuthorize`: `redirect.html` is executed, and a
failure is answered with status 500. -/
def renderRedirect (b : Controller) (data : redirectData) : List Effect :=
  match b.tpl.ExecuteTemplate "redirect.html" data with
  | some _ =>
    [Effect.ExecuteTemplate "redirect.html" data,
      Effect.Error .errCouldNotRenderTemplate StatusInternalServerError]
  | none => [Effect.ExecuteTemplate "redirect.html" data]

/-- The return address of `HandleAuthorize`: the unescaped `state` of the request URL,
or `/` when it cannot be unescaped or is blank. -/
def callbackReturnURL (url : NetURL) (r : Request) : String :=
  match url.QueryUnescape ((url.Query r.URL).Get "state") with
  | .error _ => "/"
  | .ok returnURL => if TrimSpace returnURL == "" then "/" else returnURL

/-- `Controller.HandleAuthorize` at time `now`: the response writer after the call. -/
def HandleAuthorize (url : NetURL) (b : Controller) (now : Time) (w : ResponseWriter)
    (r : Request) : ResponseWriter :=
  match b.localize r with
  | .error _ => w ++ [Effect.Error .errCouldNotLocalize StatusInternalServerError]
  | .ok locale =>
    let authCode := (url.Query r.URL).Get "code"
    let returnURL := callbackReturnURL url r
    if TrimSpace authCode == "" then
      let w := w ++ [Effect.SetCookie { Name := b.refreshTokenKey, Value := "", MaxAge := -1 }]
      let w := w ++ [Effect.SetCookie { Name := b.idTokenKey, Value := "", MaxAge := -1 }]
      w ++ renderRedirect b (signingData b locale "Signing you out ..." returnURL)
    else
      match b.config.Exchange authCode with
      | .error _ => w ++ [Effect.Error .errCouldNotLogin StatusUnauthorized]
      | .ok oauth2Token =>
        let w := w ++ [Effect.SetCookie (refreshTokenCookie b now oauth2Token.RefreshToken)]
        match (oauth2Token.Extra "id_token").asString with
        | none => w ++ [Effect.Error .errCouldNotLogin StatusUnauthorized]
        | some idToken =>
          let w := w ++ [Effect.SetCookie (idTokenCookie b idToken oauth2Token.Expiry)]
          w ++ renderRedirect b (signingData b locale "Signing you in ..." returnURL)

/-! ## The page handlers (`activities.go`, `journal.go`) -/

def StatusUnprocessableEntity : Int := 422

/-- The Go conversion `int32(n)` of an `int`: the low 32 bits, in two's complement. -/
def toInt32 (n : Int) : int32 := (n + 2147483648) % 4294967296 - 2147483648

/-- The library functions the page handlers call: `strconv.Atoi`, `time.Parse` (layout,
then value) and `r.ParseForm`. -/
structure Std where
  Atoi : String → Except Error Int
  Parse : String → String → Except Error Time
  ParseForm : Request → Option Error

/-- The operations of the `*persisters.Persister` that the page handlers call (defined
outside these files). A handler calls at most one of them, once, so the outcome is a
function of the arguments; the last argument of each is the namespace, except for
`UpdateActivity`, where it is the third. -/
structure Persister where
  GetJournalEntries : String → Except Error (List Record)
  CreateJournalEntry : String → String → int32 → String → Except Error int32
  DeleteJournalEntry : int32 → String → Option Error
  GetJournalEntry : int32 → String → Except Error Record
  UpdateJournalEntry : int32 → String → String → int32 → String → Option Error
  GetContact : int32 → String → Except Error Record
  CreateActivity : String → Time → String → int32 → String → Except Error int32
  DeleteActivity : int32 → int32 → String → Option Error
  UpdateActivity : int32 → int32 → String → String → Time → String → Option Error
  GetActivityAndContact : int32 → int32 → String → Except Error Record

/-- The `*template.Template` at the data of the pages of these two files. -/
structure PageTemplate where
  ExecuteTemplate : String → PageContent → Option Error

/-- The `Controller` with the fields that only the page handlers use: the persister,
and the templates at the data of their pages. -/
structure PageController extends Controller where
  persister : Persister
  pages : PageTemplate

/-- One invocation of a persister operation by a page handler, with its arguments in
the order of the call. -/
inductive PersisterCall where
  | GetJournalEntries (ns : String)
  | CreateJournalEntry (title body : String) (rating : int32) (ns : String)
  | DeleteJournalEntry (id : int32) (ns : String)
  | GetJournalEntry (id : int32) (ns : String)
  | UpdateJournalEntry (id : int32) (title body : String) (rating : int32) (ns : String)
  | GetContact (id : int32) (ns : String)
  | CreateActivity (name : String) (date : Time) (description : String) (contactID : int32)
      (ns : String)
  | DeleteActivity (id contactID : int32) (ns : String)
  | UpdateActivity (id contactID : int32) (ns : String) (name : String) (date : Time)
      (description : String)
  | GetActivityAndContact (id contactID : int32) (ns : String)
  deriving DecidableEq, Repr

/-- The namespace argument of a persister invocation. -/
def PersisterCall.Namespace : PersisterCall → String
  | .GetJournalEntries ns => ns
  | .CreateJournalEntry _ _ _ ns => ns
  | .DeleteJournalEntry _ ns => ns
  | .GetJournalEntry _ ns => ns
  | .UpdateJournalEntry _ _ _ _ ns => ns
  | .GetContact _ ns => ns
  | .CreateActivity _ _ _ _ ns => ns
  | .DeleteActivity _ _ ns => ns
  | .UpdateActivity _ _ ns _ _ _ => ns
  | .GetActivityAndContact _ _ ns => ns

/-- What a page handler does: the response writer after the call, and the persister
operations it invoked. -/
abbrev Handled := ResponseWriter × List PersisterCall

/-- Go `userData.Locale.Get(str)`. The locale is never nil where the handlers call it,
after a successful `authorize`; for a nil locale the embedding gives the empty string. -/
def userData.LocaleGet (u : userData) (str : String) : String :=
  match u.Locale with
  | some locale => locale.Get str
  | none => ""

/-- The statements that open every page handler: `authorize` is called; on an error the
handler answers with it and returns, on a redirect it returns, and otherwise it goes on
with the session. -/
def authorized (url : NetURL) (b : PageController) (now : Time) (w : ResponseWriter)
    (r : Request) (next : userData → ResponseWriter → Handled) : Handled :=
  match authorize url b.toController now (some w) r with
  | ((redirected, userData, status, err), w') =>
    match err with
    | some err => ((w'.getD w) ++ [Effect.Error err status], [])
    | none => if redirected then (w'.getD w, []) else next userData (w'.getD w)

/-- The statements that close a rendering page handler: the template is executed, and
a failure is answered with status 500. -/
def render (b : PageController) (w : ResponseWriter) (calls : List PersisterCall)
    (name : String) (data : PageContent) : Handled :=
  match b.pages.ExecuteTemplate name data with
  | some _ =>
    (w ++ [Effect.ExecutePage name data,
      Effect.Error .errCouldNotRenderTemplate StatusInternalServerError], calls)
  | none => (w ++ [Effect.ExecutePage name data], calls)

/-- `Controller.HandleJournal`. -/
def HandleJournal (url : NetURL) (b : PageController) (now : Time) (w : ResponseWriter)
    (r : Request) : Handled :=
  authorized url b now w r fun userData w =>
    match b.persister.GetJournalEntries userData.Email with
    | .error _ =>
      (w ++ [Effect.Error .errCouldNotFetchFromDB StatusInternalServerError],
        [PersisterCall.GetJournalEntries userData.Email])
    | .ok journalEntries =>
      render b w [PersisterCall.GetJournalEntries userData.Email] "journal.html"
        (PageContent.journalData
          { toPageData :=
              { toUserData := userData
                Page := userData.LocaleGet "Journal"
                PrivacyURL := b.privacyURL
                ImprintURL := b.imprintURL }
            Entries := journalEntries })

/-- `Controller.HandleAddJournal`. -/
def HandleAddJournal (url : NetURL) (b : PageController) (now : Time) (w : ResponseWriter)
    (r : Request) : Handled :=
  authorized url b now w r fun userData w =>
    render b w [] "journal_add.html"
      (PageContent.pageData
        { toUserData := userData
          Page := userData.LocaleGet "Add a journal entry"
          PrivacyURL := b.privacyURL
          ImprintURL := b.imprintURL })

/-- `Controller.HandleCreateJournal`. -/
def HandleCreateJournal (url : NetURL) (std : Std) (b : PageController) (now : Time)
    (w : ResponseWriter) (r : Request) : Handled :=
  authorized url b now w r fun userData w =>
    match std.ParseForm r with
    | some _ => (w ++ [Effect.Error .errCouldNotParseForm StatusInternalServerError], [])
    | none =>
      let title := r.FormValue "title"
      if TrimSpace title == "" then
        (w ++ [Effect.Error .errInvalidForm StatusUnprocessableEntity], [])
      else
        let body := r.FormValue "body"
        if TrimSpace body == "" then
          (w ++ [Effect.Error .errInvalidForm StatusUnprocessableEntity], [])
        else
          let rrating := r.FormValue "rating"
          if TrimSpace rrating == "" then
            (w ++ [Effect.Error .errInvalidForm StatusUnprocessableEntity], [])
          else
            match std.Atoi rrating with
            | .error _ => (w ++ [Effect.Error .errInvalidForm StatusUnprocessableEntity], [])
            | .ok rating =>
              match b.persister.CreateJournalEntry title body (toInt32 rating)
                  userData.Email with
              | .error _ =>
                (w ++ [Effect.Error .errCouldNotInsertIntoDB StatusInternalServerError],
                  [PersisterCall.CreateJournalEntry title body (toInt32 rating)
                    userData.Email])
              | .ok id =>
                (w ++ [Effect.Redirect ("/journal/view?id=" ++ toString id) StatusFound],
                  [PersisterCall.CreateJournalEntry title body (toInt32 rating)
                    userData.Email])

/-- `Controller.HandleDeleteJournal`. -/
def HandleDeleteJournal (url : NetURL) (std : Std) (b : PageController) (now : Time)
    (w : ResponseWriter) (r : Request) : Handled :=
  authorized url b now w r fun userData w =>
    match std.ParseForm r with
    | some _ => (w ++ [Effect.Error .errCouldNotParseForm StatusInternalServerError], [])
    | none =>
      let rid := r.FormValue "id"
      if TrimSpace rid == "" then
        (w ++ [Effect.Error .errInvalidForm StatusUnprocessableEntity], [])
      else
        match std.Atoi rid with
        | .error _ => (w ++ [Effect.Error .errInvalidForm StatusUnprocessableEntity], [])
        | .ok id =>
          match b.persister.DeleteJournalEntry (toInt32 id) userData.Email with
          | some _ =>
            (w ++ [Effect.Error .errCouldNotDeleteFromDB StatusInternalServerError],
              [PersisterCall.DeleteJournalEntry (toInt32 id) userData.Email])
          | none =>
            (w ++ [Effect.Redirect "/journal" StatusFound],
              [PersisterCall.DeleteJournalEntry (toInt32 id) userData.Email])

/-- `Controller.HandleEditJournal`. -/
def HandleEditJournal (url : NetURL) (std : Std) (b : PageController) (now : Time)
    (w : ResponseWriter) (r : Request) : Handled :=
  authorized url b now w r fun userData w =>
    let rid := r.FormValue "id"
    if TrimSpace rid == "" then
      (w ++ [Effect.Error .errInvalidQueryParam StatusUnprocessableEntity], [])
    else
      match std.Atoi rid with
      | .error _ => (w ++ [Effect.Error .errInvalidQueryParam StatusUnprocessableEntity], [])
      | .ok id =>
        match b.persister.GetJournalEntry (toInt32 id) userData.Email with
        | .error _ =>
          (w ++ [Effect.Error .errCouldNotFetchFromDB StatusInternalServerError],
            [PersisterCall.GetJournalEntry (toInt32 id) userData.Email])
        | .ok journalEntry =>
          render b w [PersisterCall.GetJournalEntry (toInt32 id) userData.Email]
            "journal_edit.html"
            (PageContent.journalEntryData
              { toPageData :=
                  { toUserData := userData
                    Page := userData.LocaleGet "Edit journal entry"
                    PrivacyURL := b.privacyURL
                    ImprintURL := b.imprintURL }
                Entry := journalEntry })

/-- `Controller.HandleUpdateJournal`. -/
def HandleUpdateJournal (url : NetURL) (std : Std) (b : PageController) (now : Time)
    (w : ResponseWriter) (r : Request) : Handled :=
  authorized url b now w r fun userData w =>
    match std.ParseForm r with
    | some _ => (w ++ [Effect.Error .errCouldNotParseForm StatusInternalServerError], [])
    | none =>
      let rid := r.FormValue "id"
      if TrimSpace rid == "" then
        (w ++ [Effect.Error .errInvalidForm StatusUnprocessableEntity], [])
      else
        match std.Atoi rid with
        | .error _ => (w ++ [Effect.Error .errInvalidForm StatusUnprocessableEntity], [])
        | .ok id =>
          let title := r.FormValue "title"
          if TrimSpace title == "" then
            (w ++ [Effect.Error .errInvalidForm StatusUnprocessableEntity], [])
          else
            let body := r.FormValue "body"
            if TrimSpace body == "" then
              (w ++ [Effect.Error .errInvalidForm StatusUnprocessableEntity], [])
            else
              let rrating := r.FormValue "rating"
              if TrimSpace rrating == "" then
                (w ++ [Effect.Error .errInvalidForm StatusUnprocessableEntity], [])
              else
                match std.Atoi rrating with
                | .error _ =>
                  (w ++ [Effect.Error .errInvalidForm StatusUnprocessableEntity], [])
                | .ok rating =>
                  match b.persister.UpdateJournalEntry (toInt32 id) title body
                      (toInt32 rating) userData.Email with
                  | some _ =>
                    (w ++ [Effect.Error .errCouldNotInsertIntoDB StatusInternalServerError],
                      [PersisterCall.UpdateJournalEntry (toInt32 id) title body
                        (toInt32 rating) userData.Email])
                  | none =>
                    (w ++ [Effect.Redirect ("/journal/view?id=" ++ rid) StatusFound],
                      [PersisterCall.UpdateJournalEntry (toInt32 id) title body
                        (toInt32 rating) userData.Email])

/-- `Controller.HandleViewJournal`. -/
def HandleViewJournal (url : NetURL) (std : Std) (b : PageController) (now : Time)
    (w : ResponseWriter) (r : Request) : Handled :=
  authorized url b now w r fun userData w =>
    let rid := r.FormValue "id"
    if TrimSpace rid == "" then
      (w ++ [Effect.Error .errInvalidQueryParam StatusUnprocessableEntity], [])
    else
      match std.Atoi rid with
      | .error _ => (w ++ [Effect.Error .errInvalidQueryParam StatusUnprocessableEntity], [])
      | .ok id =>
        match b.persister.GetJournalEntry (toInt32 id) userData.Email with
        | .error _ =>
          (w ++ [Effect.Error .errCouldNotFetchFromDB StatusInternalServerError],
            [PersisterCall.GetJournalEntry (toInt32 id) userData.Email])
        | .ok journalEntry =>
          render b w [PersisterCall.GetJournalEntry (toInt32 id) userData.Email]
            "journal_view.html"
            (PageContent.journalEntryData
              { toPageData :=
                  { toUserData := userData
                    Page := journalEntry.field "Title"
                    PrivacyURL := b.privacyURL
                    ImprintURL := b.imprintURL
                    BackURL := "/journal" }
                Entry := journalEntry })

/-- `Controller.HandleAddActivity`. -/
def HandleAddActivity (url : NetURL) (std : Std) (b : PageController) (now : Time)
    (w : ResponseWriter) (r : Request) : Handled :=
  authorized url b now w r fun userData w =>
    let rid := r.FormValue "id"
    if TrimSpace rid == "" then
      (w ++ [Effect.Error .errInvalidQueryParam StatusUnprocessableEntity], [])
    else
      match std.Atoi rid with
      | .error _ => (w ++ [Effect.Error .errInvalidQueryParam StatusUnprocessableEntity], [])
      | .ok id =>
        match b.persister.GetContact (toInt32 id) userData.Email with
        | .error _ =>
          (w ++ [Effect.Error .errCouldNotFetchFromDB StatusInternalServerError],
            [PersisterCall.GetContact (toInt32 id) userData.Email])
        | .ok contact =>
          render b w [PersisterCall.GetContact (toInt32 id) userData.Email]
            "activities_add.html"
            (PageContent.contactData
              { toPageData :=
                  { toUserData := userData
                    Page := userData.LocaleGet "Add an activity"
                    PrivacyURL := b.privacyURL
                    ImprintURL := b.imprintURL }
                Entry := contact })

/-- `Controller.HandleCreateActivity`. -/
def HandleCreateActivity (url : NetURL) (std : Std) (b : PageController) (now : Time)
    (w : ResponseWriter) (r : Request) : Handled :=
  authorized url b now w r fun userData w =>
    match std.ParseForm r with
    | some _ => (w ++ [Effect.Error .errCouldNotParseForm StatusInternalServerError], [])
    | none =>
      let rcontactID := r.FormValue "contact_id"
      if TrimSpace rcontactID == "" then
        (w ++ [Effect.Error .errInvalidForm StatusUnprocessableEntity], [])
      else
        match std.Atoi rcontactID with
        | .error _ => (w ++ [Effect.Error .errInvalidForm StatusUnprocessableEntity], [])
        | .ok contactID =>
          let name := r.FormValue "name"
          if TrimSpace name == "" then
            (w ++ [Effect.Error .errInvalidForm StatusUnprocessableEntity], [])
          else
            let rdate := r.FormValue "date"
            if TrimSpace rdate == "" then
              (w ++ [Effect.Error .errInvalidForm StatusUnprocessableEntity], [])
            else
              match std.Parse "2006-01-02" rdate with
              | .error _ =>
                (w ++ [Effect.Error .errInvalidForm StatusUnprocessableEntity], [])
              | .ok date =>
                let description := r.FormValue "description"
                match b.persister.CreateActivity name date description (toInt32 contactID)
                    userData.Email with
                | .error _ =>
                  (w ++ [Effect.Error .errCouldNotInsertIntoDB StatusInternalServerError],
                    [PersisterCall.CreateActivity name date description (toInt32 contactID)
                      userData.Email])
                | .ok _ =>
                  (w ++ [Effect.Redirect ("/contacts/view?id=" ++ toString contactID)
                      StatusFound],
                    [PersisterCall.CreateActivity name date description (toInt32 contactID)
                      userData.Email])

/-- `Controller.HandleDeleteActivity`. -/
def HandleDeleteActivity (url : NetURL) (std : Std) (b : PageController) (now : Time)
    (w : ResponseWriter) (r : Request) : Handled :=
  authorized url b now w r fun userData w =>
    match std.ParseForm r with
    | some _ => (w ++ [Effect.Error .errCouldNotParseForm StatusInternalServerError], [])
    | none =>
      let rid := r.FormValue "id"
      if TrimSpace rid == "" then
        (w ++ [Effect.Error .errInvalidForm StatusUnprocessableEntity], [])
      else
        match std.Atoi rid with
        | .error _ => (w ++ [Effect.Error .errInvalidForm StatusUnprocessableEntity], [])
        | .ok id =>
          let rcontactID := r.FormValue "contact_id"
          if TrimSpace rcontactID == "" then
            (w ++ [Effect.Error .errInvalidForm StatusUnprocessableEntity], [])
          else
            match std.Atoi rcontactID with
            | .error _ => (w ++ [Effect.Error .errInvalidForm StatusUnprocessableEntity], [])
            | .ok contactID =>
              match b.persister.DeleteActivity (toInt32 id) (toInt32 contactID)
                  userData.Email with
              | some _ =>
                (w ++ [Effect.Error .errCouldNotUpdateInDB StatusInternalServerError],
                  [PersisterCall.DeleteActivity (toInt32 id) (toInt32 contactID)
                    userData.Email])
              | none =>
                (w ++ [Effect.Redirect ("/contacts/view?id=" ++ toString contactID)
                    StatusFound],
                  [PersisterCall.DeleteActivity (toInt32 id) (toInt32 contactID)
                    userData.Email])

/-- `Controller.HandleUpdateActivity`. -/
def HandleUpdateActivity (url : NetURL) (std : Std) (b : PageController) (now : Time)
    (w : ResponseWriter) (r : Request) : Handled :=
  authorized url b now w r fun userData w =>
    match std.ParseForm r with
    | some _ => (w ++ [Effect.Error .errCouldNotParseForm StatusInternalServerError], [])
    | none =>
      let rid := r.FormValue "id"
      if TrimSpace rid == "" then
        (w ++ [Effect.Error .errInvalidForm StatusUnprocessableEntity], [])
      else
        match std.Atoi rid with
        | .error _ => (w ++ [Effect.Error .errInvalidForm StatusUnprocessableEntity], [])
        | .ok id =>
          let rcontactID := r.FormValue "contact_id"
          if TrimSpace rcontactID == "" then
            (w ++ [Effect.Error .errInvalidForm StatusUnprocessableEntity], [])
          else
            match std.Atoi rcontactID with
            | .error _ => (w ++ [Effect.Error .errInvalidForm StatusUnprocessableEntity], [])
            | .ok contactID =>
              let name := r.FormValue "name"
              if TrimSpace name == "" then
                (w ++ [Effect.Error .errInvalidForm StatusUnprocessableEntity], [])
              else
                let rdate := r.FormValue "date"
                if TrimSpace rdate == "" then
                  (w ++ [Effect.Error .errInvalidForm StatusUnprocessableEntity], [])
                else
                  match std.Parse "2006-01-02" rdate with
                  | .error _ =>
                    (w ++ [Effect.Error .errInvalidForm StatusUnprocessableEntity], [])
                  | .ok date =>
                    let description := r.FormValue "description"
                    match b.persister.UpdateActivity (toInt32 id) (toInt32 contactID)
                        userData.Email name date description with
                    | some _ =>
                      (w ++ [Effect.Error .errCouldNotUpdateInDB StatusInternalServerError],
                        [PersisterCall.UpdateActivity (toInt32 id) (toInt32 contactID)
                          userData.Email name date description])
                    | none =>
                      (w ++ [Effect.Redirect ("/contacts/view?id=" ++ toString contactID)
                          StatusFound],
                        [PersisterCall.UpdateActivity (toInt32 id) (toInt32 contactID)
                          userData.Email name date description])

/-- `Controller.HandleEditActivity`. -/
def HandleEditActivity (url : NetURL) (std : Std) (b : PageController) (now : Time)
    (w : ResponseWriter) (r : Request) : Handled :=
  authorized url b now w r fun userData w =>
    let rid := (url.Query r.URL).Get "id"
    if TrimSpace rid == "" then
      (w ++ [Effect.Error .errInvalidQueryParam StatusUnprocessableEntity], [])
    else
      match std.Atoi rid with
      | .error _ => (w ++ [Effect.Error .errInvalidQueryParam StatusUnprocessableEntity], [])
      | .ok id =>
        let rcontactID := (url.Query r.URL).Get "contact_id"
        if TrimSpace rcontactID == "" then
          (w ++ [Effect.Error .errInvalidQueryParam StatusUnprocessableEntity], [])
        else
          match std.Atoi rcontactID with
          | .error _ =>
            (w ++ [Effect.Error .errInvalidQueryParam StatusUnprocessableEntity], [])
          | .ok contactID =>
            match b.persister.GetActivityAndContact (toInt32 id) (toInt32 contactID)
                userData.Email with
            | .error _ =>
              (w ++ [Effect.Error .errCouldNotFetchFromDB StatusInternalServerError],
                [PersisterCall.GetActivityAndContact (toInt32 id) (toInt32 contactID)
                  userData.Email])
            | .ok activityAndContact =>
              render b w
                [PersisterCall.GetActivityAndContact (toInt32 id) (toInt32 contactID)
                  userData.Email]
                "activities_edit.html"
                (PageContent.activityData
                  { toPageData :=
                      { toUserData := userData
                        Page := userData.LocaleGet "Edit activity"
                        PrivacyURL := b.privacyURL
                        ImprintURL := b.imprintURL }
                    Entry := activityAndContact })

/-- `Controller.HandleViewActivity`. -/
def HandleViewActivity (url : NetURL) (std : Std) (b : PageController) (now : Time)
    (w : ResponseWriter) (r : Request) : Handled :=
  authorized url b now w r fun userData w =>
    let rid := r.FormValue "id"
    if TrimSpace rid == "" then
      (w ++ [Effect.Error .errInvalidQueryParam StatusUnprocessableEntity], [])
    else
      match std.Atoi rid with
      | .error _ => (w ++ [Effect.Error .errInvalidQueryParam StatusUnprocessableEntity], [])
      | .ok id =>
        let rcontactID := (url.Query r.URL).Get "contact_id"
        if TrimSpace rcontactID == "" then
          (w ++ [Effect.Error .errInvalidQueryParam StatusUnprocessableEntity], [])
        else
          match std.Atoi rcontactID with
          | .error _ =>
            (w ++ [Effect.Error .errInvalidQueryParam StatusUnprocessableEntity], [])
          | .ok contactID =>
            match b.persister.GetActivityAndContact (toInt32 id) (toInt32 contactID)
                userData.Email with
            | .error _ =>
              (w ++ [Effect.Error .errCouldNotFetchFromDB StatusInternalServerError],
                [PersisterCall.GetActivityAndContact (toInt32 id) (toInt32 contactID)
                  userData.Email])
            | .ok activityAndContact =>
              render b w
                [PersisterCall.GetActivityAndContact (toInt32 id) (toInt32 contactID)
                  userData.Email]
                "activities_view.html"
                (PageContent.activityData
                  { toPageData :=
                      { toUserData := userData
                        Page := activityAndContact.field "Name"
                        PrivacyURL := b.privacyURL
                        ImprintURL := b.imprintURL
                        BackURL := "/contacts/view?id=" ++ toString contactID }
                    Entry := activityAndContact })

/-- The handlers of `journal.go` and `activities.go`, by name. -/
def pageHandlers :
    List (String × (NetURL → Std → PageController → Time → ResponseWriter → Request → Handled)) :=
  [("HandleJournal", fun url _ b now w r => HandleJournal url b now w r),
    ("HandleAddJournal", fun url _ b now w r => HandleAddJournal url b now w r),
    ("HandleCreateJournal", HandleCreateJournal),
    ("HandleDeleteJournal", HandleDeleteJournal),
    ("HandleEditJournal", HandleEditJournal),
    ("HandleUpdateJournal", HandleUpdateJournal),
    ("HandleViewJournal", HandleViewJournal),
    ("HandleAddActivity", HandleAddActivity),
    ("HandleCreateActivity", HandleCreateActivity),
    ("HandleDeleteActivity", HandleDeleteActivity),
    ("HandleUpdateActivity", HandleUpdateActivity),
    ("HandleEditActivity", HandleEditActivity),
    ("HandleViewActivity", HandleViewActivity)]

/-! ## Specification vocabulary for the persister -/

/-- The outcome logged with a call (`Rollback` logs none: its result is dropped). -/
def Event.err : Event → Option Error
  | .Begin err => err
  | .Commit err => err
  | .Rollback => none
  | .Get _ _ err => err
  | .Delete _ _ err => err
  | .CreateJournalEntry _ err => err
  | .CreateContact _ err => err
  | .CreateDebt _ err => err
  | .CreateActivity _ err => err
  | .onJournalEntry _ err => err
  | .onContact _ err => err
  | .onDebt _ err => err
  | .onActivity _ err => err

/-- One planned call of an export: opening the transaction, reading a table, or
invoking a sink on a record. -/
inductive Step where
  | begin
  | get (t : Table)
  | onJournalEntry (journalEntry : ExportedJournalEntry)
  | onContact (contact : ExportedContact)
  | onDebt (debt : ExportedDebt)
  | onActivity (activity : ExportedActivity)
  deriving DecidableEq, Repr

/-- Whether the planned call is a sink invocation. -/
def Step.isSink : Step → Bool
  | .begin => false
  | .get _ => false
  | _ => true

/-- The rows a read returned; none when it failed. -/
def rowsOf {α : Type} : Except Error (List α) → List α
  | .ok rows => rows
  | .error _ => []

/-- The call logged when the planned call is made after the calls in `log`, with the
outcome the database or the sink gives it there. -/
def perform (db : ExportDB) (ns : String) (sinks : Sinks) (log : List Event) : Step → Event
  | .begin => Event.Begin db.Begin
  | .get .JournalEntries =>
    Event.Get .JournalEntries ns (errOf (db.GetJournalEntriesExportForNamespace ns))
  | .get .Contacts => Event.Get .Contacts ns (errOf (db.GetContactsExportForNamespace ns))
  | .get .Debts => Event.Get .Debts ns (errOf (db.GetDebtsExportForNamespace ns))
  | .get .Activities =>
    Event.Get .Activities ns (errOf (db.GetActivitiesExportForNamespace ns))
  | .onJournalEntry a => Event.onJournalEntry a (sinks.onJournalEntry log a)
  | .onContact a => Event.onContact a (sinks.onContact log a)
  | .onDebt a => Event.onDebt a (sinks.onDebt log a)
  | .onActivity a => Event.onActivity a (sinks.onActivity log a)

/-- The calls logged when all the planned calls are made in order, one call per plan
entry, after the calls in `log`. -/
def performAll (db : ExportDB) (ns : String) (sinks : Sinks) :
    List Step → List Event → List Event
  | [], _ => []
  | s :: rest, log =>
    perform db ns sinks log s ::
      performAll db ns sinks rest (log ++ [perform db ns sinks log s])

/-- The sequence `J ++ C ++ D ++ A` of the spec: the sink invocations of a complete
export, journal entries, then contacts, then debts, then activities, each table in the
order the store returned its rows. -/
def exportRecords (db : ExportDB) (ns : String) : List Step :=
  (rowsOf (db.GetJournalEntriesExportForNamespace ns)).map
      (fun row => Step.onJournalEntry (exportJournalEntry row)) ++
    ((rowsOf (db.GetContactsExportForNamespace ns)).map
        (fun row => Step.onContact (exportContact row)) ++
      ((rowsOf (db.GetDebtsExportForNamespace ns)).map
          (fun row => Step.onDebt (exportDebt row)) ++
        (rowsOf (db.GetActivitiesExportForNamespace ns)).map
          (fun row => Step.onActivity (exportActivity row))))

/-- The reads and sink invocations of a complete export in the order of the spec:
each table is read and then its rows are handed to its sink. -/
def exportReads (db : ExportDB) (ns : String) : List Step :=
  Step.get .JournalEntries ::
    ((rowsOf (db.GetJournalEntriesExportForNamespace ns)).map
        (fun row => Step.onJournalEntry (exportJournalEntry row)) ++
    (Step.get .Contacts ::
      ((rowsOf (db.GetContactsExportForNamespace ns)).map
          (fun row => Step.onContact (exportContact row)) ++
      (Step.get .Debts ::
        ((rowsOf (db.GetDebtsExportForNamespace ns)).map
            (fun row => Step.onDebt (exportDebt row)) ++
        (Step.get .Activities ::
          (rowsOf (db.GetActivitiesExportForNamespace ns)).map
            (fun row => Step.onActivity (exportActivity row))))))))

/-- The complete plan of an export: open the transaction, then `exportReads`. -/
def exportPlan (db : ExportDB) (ns : String) : List Step :=
  Step.begin :: exportReads db ns

/-- The walk as the spec words it: make the planned calls in order, stop at the first
one that fails and return its error. -/
def walk (db : ExportDB) (ns : String) (sinks : Sinks) :
    List Step → List Event → Option Error × List Event
  | [], log => (none, log)
  | s :: rest, log =>
    match (perform db ns sinks log s).err with
    | some err => (some err, log ++ [perform db ns sinks log s])
    | none => walk db ns sinks rest (log ++ [perform db ns sinks log s])

/-- The planned sink invocation that a logged sink call carried out, with the record
the sink was handed; none for the transaction operations, the reads and the queries. -/
def Event.invoked : Event → Option Step
  | .onJournalEntry a _ => some (.onJournalEntry a)
  | .onContact a _ => some (.onContact a)
  | .onDebt a _ => some (.onDebt a)
  | .onActivity a _ => some (.onActivity a)
  | _ => none

/-- The delete query of a table. -/
def DeleteDB.Delete (db : DeleteDB) : Table → String → Option Error
  | .Activities => db.DeleteActivitiesForNamespace
  | .Debts => db.DeleteDebtsForNamespace
  | .Contacts => db.DeleteContactsForNamespace
  | .JournalEntries => db.DeleteJournalEntriesForNamespace

/-- The table and the namespace argument of a delete call. -/
def Event.deleted : Event → Option (Table × String)
  | .Delete t ns _ => some (t, ns)
  | _ => none

/-- Whether the call is transaction control or a delete whose argument is `ns`. -/
def Event.isTxOrDeleteFor (ns : String) : Event → Bool
  | .Begin _ => true
  | .Commit _ => true
  | .Rollback => true
  | .Delete _ n _ => n == ns
  | _ => false

/-! ## Example collaborators

Concrete databases, a provider and requests on which the theorems below are
instantiated. -/

/-- A database whose inserts all succeed and return a fresh identifier. -/
def freshDB : ImportDB :=
  { Begin := none
    Commit := fun _ => none
    Rollback := fun _ => none
    CreateJournalEntry := fun log _ => .ok (100 + log.length)
    CreateContact := fun log _ => .ok (100 + log.length)
    CreateDebt := fun log _ => .ok (100 + log.length)
    CreateActivity := fun log _ => .ok (100 + log.length) }

def contact7 : ExportedContact :=
  { ID := 7, FirstName := "Bob", LastName := "", Nickname := "", Email := "", Pronouns := "",
    Namespace := "alice@example.com", Birthday := none, Address := "", Notes := "" }

def debt3 : ExportedDebt :=
  { ID := 3, Amount := 100, Currency := "EUR", Description := "", ContactID := ⟨7, true⟩ }

def activity4 : ExportedActivity :=
  { ID := 4, Name := "Lunch", Date := ⟨0⟩, Description := "", ContactID := ⟨7, true⟩ }

def journal7 : ExportedJournalEntry :=
  { ID := 7, Title := "Monday", Date := ⟨0⟩, Body := "", Rating := 3,
    Namespace := "alice@example.com" }

/-- A database holding one journal entry, one contact and one debt of
`alice@example.com`, whose activities cannot be read. -/
def aliceDB : ExportDB :=
  { Begin := none
    GetJournalEntriesExportForNamespace := fun ns =>
      .ok (if ns = "alice@example.com" then [⟨7, "Monday", ⟨0⟩, "", 3, ns⟩] else [])
    GetContactsExportForNamespace := fun ns =>
      .ok (if ns = "alice@example.com" then [⟨7, "Bob", "", "", "", "", ns, none, "", ""⟩]
        else [])
    GetDebtsExportForNamespace := fun ns =>
      .ok (if ns = "alice@example.com" then [⟨3, 100, "EUR", "", ⟨7, true⟩⟩] else [])
    GetActivitiesExportForNamespace := fun _ => .error (.other "connection lost") }

/-- Sinks that accept every record. -/
def acceptAll : Sinks :=
  { onJournalEntry := fun _ _ => none
    onContact := fun _ _ => none
    onDebt := fun _ _ => none
    onActivity := fun _ _ => none }

/-- A database on which deleting contacts fails. -/
def contactsLockedDB : DeleteDB :=
  { Begin := none
    DeleteActivitiesForNamespace := fun _ => none
    DeleteDebtsForNamespace := fun _ => none
    DeleteContactsForNamespace := fun _ => some (.other "locked")
    DeleteJournalEntriesForNamespace := fun _ => none
    Commit := none }

/-- A database on which every delete and the commit succeed. -/
def unlockedDB : DeleteDB :=
  { Begin := none
    DeleteActivitiesForNamespace := fun _ => none
    DeleteDebtsForNamespace := fun _ => none
    DeleteContactsForNamespace := fun _ => none
    DeleteJournalEntriesForNamespace := fun _ => none
    Commit := none }

def hexDigit (n : Nat) : Char := "0123456789ABCDEF".data.getD n '0'

/-- Query escaping of one ASCII character. -/
def escapeChar (c : Char) : List Char :=
  if c.isAlphanum || c ∈ ['-', '_', '.', '~'] then [c]
  else if c = ' ' then ['+']
  else ['%', hexDigit (c.toNat / 16 % 16), hexDigit (c.toNat % 16)]

/-- The pieces of a text between the occurrences of a separator. -/
def splitOnChar (sep : Char) : List Char → List (List Char)
  | [] => [[]]
  | c :: cs =>
    if c = sep then [] :: splitOnChar sep cs
    else
      match splitOnChar sep cs with
      | [] => [[c]]
      | x :: xs => (c :: x) :: xs

/-- The pairs of a raw query `k=v&k=v`, without unescaping. -/
def parseQuery (s : String) : Values :=
  if s = "" then []
  else
    (splitOnChar '&' s.data).map fun kv =>
      match splitOnChar '=' kv with
      | k :: v :: _ => (String.mk k, [String.mk v])
      | k :: [] => (String.mk k, [""])
      | [] => ("", [""])

/-- A `net/url` for the examples; it escapes ASCII text like `url.QueryEscape`, reads
a raw query without unescaping, and unescapes only text without percent escapes. -/
def exURL : NetURL :=
  { QueryEscape := fun s => String.mk (s.data.flatMap escapeChar)
    QueryUnescape := fun s =>
      if '%' ∈ s.data then .error (.other "percent escape")
      else .ok (String.mk (s.data.map fun c => if c = '+' then ' ' else c))
    Parse := fun s =>
      if s = "" then .error (.other "empty url") else .ok ⟨"https", s, "", ""⟩
    Query := fun u => parseQuery u.RawQuery
    Encode := fun v =>
      String.intercalate "&" (v.reverse.map (fun kv => kv.1 ++ "=" ++ String.intercalate "," kv.2))
    JoinPath := fun u segs => { u with Path := u.Path ++ "/" ++ String.intercalate "/" segs }
    String := fun u =>
      (if u.Scheme = "" then "" else u.Scheme ++ "://") ++ u.Host ++ u.Path ++
        (if u.RawQuery = "" then "" else "?" ++ u.RawQuery) }

def exLocale : Locale := ⟨"en", []⟩

/-- An example controller. Its provider accepts the identity credentials `id-ok` and
`id-new`, reports an unverified email for `id-unverified` and rejects every other one;
it refreshes `rt-good` (rotating the refresh credential), `rt-keep` (returning no
refresh credential) and `rt-unverified` (to `id-unverified`), answers `rt-noid` with an
`id_token` that is no string and `rt-stale` with the expired `id-old`, and rejects every
other refresh credential. It exchanges the code `code-good` for a refresh credential and an
identity credential, `code-noid` for a refresh credential alone, `code-empty` for an
empty refresh credential alone, and rejects every other code. Its locale resolver
rejects the language `??`. -/
def exController : Controller :=
  { tpl := ⟨fun _ _ => none⟩
    privacyURL := "/privacy"
    imprintURL := "/imprint"
    oidcIssuer := "idp.example.com"
    oidcRedirectURL := "https://app.example.com/authorize"
    config :=
      { AuthCodeURL := fun state => "https://idp.example.com/authorize?state=" ++ state
        TokenSource := fun rt =>
          if rt = "rt-good" then .ok ⟨"rt-new", ⟨1000⟩, [("id_token", .string "id-new")]⟩
          else if rt = "rt-keep" then .ok ⟨"", ⟨1000⟩, [("id_token", .string "id-new")]⟩
          else if rt = "rt-unverified" then
            .ok ⟨"rt-new", ⟨1000⟩, [("id_token", .string "id-unverified")]⟩
          else if rt = "rt-noid" then .ok ⟨"rt-new", ⟨1000⟩, [("id_token", .other "42")]⟩
          else if rt = "rt-stale" then .ok ⟨"rt-new", ⟨1000⟩, [("id_token", .string "id-old")]⟩
          else .error (.other "invalid_grant")
        Exchange := fun code =>
          if code = "code-good" then
            .ok ⟨"rt-new", ⟨1000⟩, [("id_token", .string "id-new")]⟩
          else if code = "code-noid" then .ok ⟨"rt-new", ⟨1000⟩, []⟩
          else if code = "code-empty" then .ok ⟨"", ⟨1000⟩, []⟩
          else .error (.other "invalid_grant") }
    verifier := ⟨fun tok =>
      if tok = "id-ok" ∨ tok = "id-new" then .ok ⟨.ok ⟨"alice@example.com", true⟩⟩
      else if tok = "id-unverified" then .ok ⟨.ok ⟨"alice@example.com", false⟩⟩
      else .error (.other "expired")⟩
    refreshTokenKey := "refresh_token"
    idTokenKey := "id_token"
    localize := fun r =>
      if r.HeaderGet "Accept-Language" = "??" then .error (.other "bad language")
      else .ok exLocale }

/-- A request for `/journal` coming from `/contacts`. -/
def exRequest (lang : String) (cookies : List Cookie) (form : List (String × String)) :
    Request :=
  { Header := [("Referer", "/contacts"), ("Accept-Language", lang)]
    Cookies := cookies
    Form := form
    URL := ⟨"", "", "/journal", ""⟩ }

/-- The import of `contact7` into a fresh import of `alice2@example.com`. -/
def contactImported : Option Error × ImportState :=
  (CreateUserData freshDB "alice2@example.com").1.createContact contact7
    (CreateUserData freshDB "alice2@example.com").2.2

/-- The import of `journal7` into a fresh import of `alice2@example.com`. -/
def journalImported : Option Error × ImportState :=
  (CreateUserData freshDB "alice2@example.com").1.createJournalEntry journal7
    (CreateUserData freshDB "alice2@example.com").2.2

def refreshCookie (value : String) : Cookie := { Name := "refresh_token", Value := value }

/-- A request for `/authorize` with the given raw query and no cookies. -/
def callbackRequest (lang : String) (rawQuery : String) : Request :=
  { Header := [("Accept-Language", lang)]
    Cookies := []
    Form := []
    URL := ⟨"", "", "/authorize", rawQuery⟩ }

def idCookie (value : String) : Cookie := { Name := "id_token", Value := value }

/-- The number written in decimal digits; none for other text. -/
def parseDigits (cs : List Char) : Option Nat :=
  if cs = [] then none
  else
    cs.foldl
      (fun acc c =>
        match acc with
        | some n => if c.isDigit then some (10 * n + (c.toNat - 48)) else none
        | none => none)
      (some 0)

/-- Library functions for the examples: `Atoi` reads an optional sign and decimal
digits, `Parse` knows the date `2024-05-01`, and every form parses. -/
def exStd : Std :=
  { Atoi := fun s =>
      match s.data with
      | '-' :: cs =>
        match parseDigits cs with
        | some n => .ok (-(n : Int))
        | none => .error (.other "invalid syntax")
      | cs =>
        match parseDigits cs with
        | some n => .ok (n : Int)
        | none => .error (.other "invalid syntax")
    Parse := fun _ value =>
      if value = "2024-05-01" then .ok ⟨1714521600000000000⟩
      else .error (.other "cannot parse")
    ParseForm := fun _ => none }

/-- A persister whose operations all succeed. -/
def exPersister : Persister :=
  { GetJournalEntries := fun _ => .ok [⟨[("Title", "Monday")]⟩]
    CreateJournalEntry := fun _ _ _ _ => .ok 12
    DeleteJournalEntry := fun _ _ => none
    GetJournalEntry := fun _ _ => .ok ⟨[("Title", "Monday")]⟩
    UpdateJournalEntry := fun _ _ _ _ _ => none
    GetContact := fun _ _ => .ok ⟨[("FirstName", "Bob")]⟩
    CreateActivity := fun _ _ _ _ _ => .ok 5
    DeleteActivity := fun _ _ _ => none
    UpdateActivity := fun _ _ _ _ _ _ => none
    GetActivityAndContact := fun _ _ _ => .ok ⟨[("Name", "Lunch")]⟩ }

/-- The example controller with the example persister; every page renders. -/
def exPages : PageController :=
  { toController := exController
    persister := exPersister
    pages := ⟨fun _ _ => none⟩ }

/-! # Theorems -/

/-! ## Import transaction: C1, C2 -/

/-- In a transaction that was opened, `createContact` leaves the remapping table as it
found it: the identifier the store assigned to the contact is dropped. -/
theorem createContact_keeps_map (db : ImportDB) (ns : String) (contact : ExportedContact)
    (s : ImportState) :
    (createContact db ns contact s).2.journalEntryIDMap = s.journalEntryIDMap := by
  simp only [createContact]
  split <;> rfl

/-- C1, evaluated on the scenario of the spec (the code departs from the claim):
`Contact{ID=7}` and then `Debt{ID=3, ContactID=7, Amount=100}` (or an activity of
contact 7) are imported into `alice2@example.com` on a store whose inserts all succeed.
The transaction opens, `createContact` succeeds and the store assigns the contact the
identifier 101, yet the remapping table stays empty, so `createDebt` and
`createActivity` return `ErrContactDoesNotExist` and issue no insert, although the
store would have accepted one. -/
theorem CreateUserData_contact_then_debt_rejected :
    (CreateUserData freshDB "alice2@example.com").2.1 = none ∧
    contactImported.1 = none ∧
    freshDB.CreateContact [Event.Begin none]
      ⟨"Bob", "", "", "", "", "alice2@example.com"⟩ = .ok 101 ∧
    contactImported.2 =
      { journalEntryIDMap := []
        log := [Event.Begin none,
          Event.CreateContact ⟨"Bob", "", "", "", "", "alice2@example.com"⟩ none] } ∧
    (CreateUserData freshDB "alice2@example.com").1.createDebt debt3 contactImported.2 =
      (some Error.ErrContactDoesNotExist, contactImported.2) ∧
    (CreateUserData freshDB "alice2@example.com").1.createActivity activity4
        contactImported.2 =
      (some Error.ErrContactDoesNotExist, contactImported.2) ∧
    (∀ log arg, freshDB.CreateDebt log arg = .ok (100 + log.length)) ∧
    (∀ log arg, freshDB.CreateActivity log arg = .ok (100 + log.length)) := by
  refine ⟨rfl, rfl, rfl, rfl, rfl, rfl, fun _ _ => rfl, fun _ _ => rfl⟩

/-- C2, evaluated on a failing input (the code departs from the claim): after
`createJournalEntry` of a journal entry with external identifier 7 and no `createContact`
call at all, `createDebt` (and `createActivity`) with the valid `ContactID` 7 returns nil
and issues an insert whose contact reference is 101, the internal identifier of the
journal entry. -/
theorem CreateUserData_journal_entry_registers_contact :
    journalImported =
      (none,
        { journalEntryIDMap := [(7, 101)]
          log := [Event.Begin none,
            Event.CreateJournalEntry ⟨"Monday", "", 3, "alice2@example.com"⟩ none] }) ∧
    (CreateUserData freshDB "alice2@example.com").1.createDebt debt3 journalImported.2 =
      (none,
        { journalEntryIDMap := [(7, 101)]
          log := [Event.Begin none,
            Event.CreateJournalEntry ⟨"Monday", "", 3, "alice2@example.com"⟩ none,
            Event.CreateDebt ⟨101, 100, "EUR", "", "alice2@example.com"⟩ none] }) ∧
    (CreateUserData freshDB "alice2@example.com").1.createActivity activity4
        journalImported.2 =
      (none,
        { journalEntryIDMap := [(7, 101)]
          log := [Event.Begin none,
            Event.CreateJournalEntry ⟨"Monday", "", 3, "alice2@example.com"⟩ none,
            Event.CreateActivity ⟨101, "Lunch", ⟨0⟩, "", "alice2@example.com"⟩ none] }) := by
  refine ⟨rfl, rfl, rfl⟩

/-! ## Export walker and delete-all: C7, C8 -/

/-- Walking a plan made of two parts: the second part is walked only when the first
went through. -/
theorem walk_append (db : ExportDB) (ns : String) (sinks : Sinks) (xs ys : List Step)
    (log : List Event) :
    walk db ns sinks (xs ++ ys) log =
      match walk db ns sinks xs log with
      | (some err, l) => (some err, l)
      | (none, l) => walk db ns sinks ys l := by
  induction xs generalizing log with
  | nil => simp [walk]
  | cons x xs ih =>
    simp only [List.cons_append, walk]
    cases h : (perform db ns sinks log x).err with
    | some err => simp
    | none => simpa using ih _

/-- The loop `forJournalEntries` is the walk over the sink invocations of its rows. -/
theorem forJournalEntries_eq_walk (db : ExportDB) (ns : String) (sinks : Sinks)
    (rows : List JournalEntryRow) (log : List Event) :
    forJournalEntries sinks rows log =
      walk db ns sinks (rows.map (fun row => Step.onJournalEntry (exportJournalEntry row))) log := by
  induction rows generalizing log with
  | nil => simp [walk, forJournalEntries]
  | cons x xs ih =>
    simp only [List.map_cons, walk, forJournalEntries, perform, Event.err]
    cases h : sinks.onJournalEntry log (exportJournalEntry x) with
    | some err => simp
    | none => simpa using ih _

/-- The loop `forContacts` is the walk over the sink invocations of its rows. -/
theorem forContacts_eq_walk (db : ExportDB) (ns : String) (sinks : Sinks)
    (rows : List ContactRow) (log : List Event) :
    forContacts sinks rows log =
      walk db ns sinks (rows.map (fun row => Step.onContact (exportContact row))) log := by
  induction rows generalizing log with
  | nil => simp [walk, forContacts]
  | cons x xs ih =>
    simp only [List.map_cons, walk, forContacts, perform, Event.err]
    cases h : sinks.onContact log (exportContact x) with
    | some err => simp
    | none => simpa using ih _

/-- The loop `forDebts` is the walk over the sink invocations of its rows. -/
theorem forDebts_eq_walk (db : ExportDB) (ns : String) (sinks : Sinks)
    (rows : List DebtRow) (log : List Event) :
    forDebts sinks rows log =
      walk db ns sinks (rows.map (fun row => Step.onDebt (exportDebt row))) log := by
  induction rows generalizing log with
  | nil => simp [walk, forDebts]
  | cons x xs ih =>
    simp only [List.map_cons, walk, forDebts, perform, Event.err]
    cases h : sinks.onDebt log (exportDebt x) with
    | some err => simp
    | none => simpa using ih _

/-- The loop `forActivities` is the walk over the sink invocations of its rows. -/
theorem forActivities_eq_walk (db : ExportDB) (ns : String) (sinks : Sinks)
    (rows : List ActivityRow) (log : List Event) :
    forActivities sinks rows log =
      walk db ns sinks (rows.map (fun row => Step.onActivity (exportActivity row))) log := by
  induction rows generalizing log with
  | nil => simp [walk, forActivities]
  | cons x xs ih =>
    simp only [List.map_cons, walk, forActivities, perform, Event.err]
    cases h : sinks.onActivity log (exportActivity x) with
    | some err => simp
    | none => simpa using ih _

/-- The first part of a plan went through: the walk goes on with the second. -/
theorem walk_append_of_none (db : ExportDB) (ns : String) (sinks : Sinks) (xs ys : List Step)
    (log l : List Event) (h : walk db ns sinks xs log = (none, l)) :
    walk db ns sinks (xs ++ ys) log = walk db ns sinks ys l := by
  rw [walk_append, h]

/-- The first part of a plan failed: the walk ends there. -/
theorem walk_append_of_some (db : ExportDB) (ns : String) (sinks : Sinks) (xs ys : List Step)
    (log l : List Event) (err : Error) (h : walk db ns sinks xs log = (some err, l)) :
    walk db ns sinks (xs ++ ys) log = (some err, l) := by
  rw [walk_append, h]

/-- The body of `GetUserData` is the walk over the reads and sink invocations. -/
theorem getUserDataBody_eq_walk (db : ExportDB) (ns : String) (sinks : Sinks)
    (log : List Event) :
    getUserDataBody db ns sinks log = walk db ns sinks (exportReads db ns) log := by
  unfold getUserDataBody exportReads
  simp only [forJournalEntries_eq_walk db ns, forContacts_eq_walk db ns,
    forDebts_eq_walk db ns, forActivities_eq_walk db ns]
  cases hJ : db.GetJournalEntriesExportForNamespace ns with
  | error e => simp [walk, perform, Event.err, errOf, hJ]
  | ok J =>
    simp only [walk, perform, Event.err, errOf, hJ, rowsOf]
    rcases h1 : walk db ns sinks (J.map (fun row => Step.onJournalEntry (exportJournalEntry row)))
      (log ++ [Event.Get .JournalEntries ns none]) with ⟨_ | e1, l1⟩
    case some => rw [walk_append_of_some _ _ _ _ _ _ _ _ h1]
    rw [walk_append_of_none _ _ _ _ _ _ _ h1]
    cases hC : db.GetContactsExportForNamespace ns with
    | error e => simp [walk, perform, Event.err, errOf, hC]
    | ok C =>
      simp only [walk, perform, Event.err, errOf, hC]
      rcases h2 : walk db ns sinks (C.map (fun row => Step.onContact (exportContact row)))
        (l1 ++ [Event.Get .Contacts ns none]) with ⟨_ | e2, l2⟩
      case some => rw [walk_append_of_some _ _ _ _ _ _ _ _ h2]
      rw [walk_append_of_none _ _ _ _ _ _ _ h2]
      cases hD : db.GetDebtsExportForNamespace ns with
      | error e => simp [walk, perform, Event.err, errOf, hD]
      | ok D =>
        simp only [walk, perform, Event.err, errOf, hD]
        rcases h3 : walk db ns sinks (D.map (fun row => Step.onDebt (exportDebt row)))
          (l2 ++ [Event.Get .Debts ns none]) with ⟨_ | e3, l3⟩
        case some => rw [walk_append_of_some _ _ _ _ _ _ _ _ h3]
        rw [walk_append_of_none _ _ _ _ _ _ _ h3]
        cases hA : db.GetActivitiesExportForNamespace ns with
        | error e => simp [walk, perform, Event.err, errOf, hA]
        | ok A => simp [walk, perform, Event.err, errOf, hA]

/-- A walk makes the first `k` planned calls: all of them, each succeeding, when it
returns nil; otherwise up to the first failing call, whose error it returns. -/
theorem walk_spec (db : ExportDB) (ns : String) (sinks : Sinks) (steps : List Step)
    (log : List Event) :
    ∃ k, (walk db ns sinks steps log).2 = log ++ performAll db ns sinks (steps.take k) log ∧
      ((walk db ns sinks steps log).1 = none →
        steps.take k = steps ∧
        ∀ e ∈ performAll db ns sinks (steps.take k) log, e.err = none) ∧
      (∀ err, (walk db ns sinks steps log).1 = some err →
        ∃ pre last, performAll db ns sinks (steps.take k) log = pre ++ [last] ∧
          (∀ e ∈ pre, e.err = none) ∧ last.err = some err) := by
  induction steps generalizing log with
  | nil => exact ⟨0, by simp [walk, performAll]⟩
  | cons s rest ih =>
    cases h : (perform db ns sinks log s).err with
    | some err =>
      refine ⟨1, ?_⟩
      simp only [walk, h, List.take_succ_cons, List.take_zero, performAll]
      refine ⟨trivial, by simp, ?_⟩
      intro err' herr
      refine ⟨[], perform db ns sinks log s, rfl, by simp, ?_⟩
      simp only [Option.some.injEq] at herr
      rw [h, herr]
    | none =>
      obtain ⟨k, h1, h2, h3⟩ := ih (log ++ [perform db ns sinks log s])
      refine ⟨k + 1, ?_⟩
      simp only [walk, h, List.take_succ_cons, performAll]
      refine ⟨by rw [h1]; simp, ?_, ?_⟩
      · intro hn
        obtain ⟨a, b⟩ := h2 hn
        refine ⟨by rw [a], ?_⟩
        intro e he
        rcases List.mem_cons.mp he with rfl | he
        · exact h
        · exact b e he
      · intro err herr
        obtain ⟨pre, last, a, b, c⟩ := h3 err herr
        refine ⟨perform db ns sinks log s :: pre, last, by rw [a]; rfl, ?_, c⟩
        intro e he
        rcases List.mem_cons.mp he with rfl | he
        · exact h
        · exact b e he

/-- The sink invocations of the plan are the sequence `J ++ C ++ D ++ A`. -/
theorem exportPlan_filter_isSink (db : ExportDB) (ns : String) :
    (exportPlan db ns).filter Step.isSink = exportRecords db ns := by
  simp [exportPlan, exportReads, exportRecords, List.filter_cons, Step.isSink, List.filter_map,
    Function.comp_def]

/-- `GetUserData` is the walk over the plan, followed by the deferred rollback when the
transaction was opened. -/
theorem GetUserData_eq_walk (db : ExportDB) (ns : String) (sinks : Sinks) :
    GetUserData db ns sinks =
      ((walk db ns sinks (exportPlan db ns) []).1,
        (walk db ns sinks (exportPlan db ns) []).2 ++
          (if db.Begin = none then [Event.Rollback] else [])) := by
  unfold GetUserData exportPlan
  cases hb : db.Begin with
  | some err => simp [walk, perform, Event.err, hb]
  | none => simp [walk, perform, Event.err, hb, getUserDataBody_eq_walk]

/-- The sink invocations among the calls made for a list of planned calls are the sink
invocations of that list, on the same records and in the same order. -/
theorem performAll_invoked (db : ExportDB) (ns : String) (sinks : Sinks) (steps : List Step)
    (log : List Event) :
    (performAll db ns sinks steps log).filterMap Event.invoked = steps.filter Step.isSink := by
  induction steps generalizing log with
  | nil => rfl
  | cons s rest ih =>
    cases s with
    | get t => cases t <;> simp [performAll, perform, Event.invoked, Step.isSink, ih]
    | _ => simp [performAll, perform, Event.invoked, Step.isSink, ih]

/-- C7: for every namespace, store and sinks, the calls `GetUserData` makes are exactly the
first `k` entries of the plan (open the transaction; read the journal entries and hand
each row to `onJournalEntry`; then the same for contacts, debts and activities; one call
per entry, in the order the store returned the rows), followed by the deferred rollback
when the transaction was opened. The sinks are therefore invoked on a prefix of
`J ++ C ++ D ++ A`. If nil is returned the whole plan was carried out and every call
succeeded; if an error is returned it is the outcome of the last call made, and every
call before it succeeded, so nothing is read or invoked after the first failure. The
records the sinks were handed, in the order of the calls, followed by the rows `rest`
that were not reached, are the rows of `J ++ C ++ D ++ A` field by field: a journal entry
with the `ID`, `Title`, `Date`, `Body`, `Rating` and `Namespace` of its row, a contact
with the ten fields of its row, a debt with the `ID`, `Amount`, `Currency`, `Description`
and `ContactID` of its row, an activity with the `ID`, `Name`, `Date`, `Description` and
`ContactID` of its row; when nil is returned no row is left. -/
theorem GetUserData_walks_longest_prefix (db : ExportDB) (ns : String) (sinks : Sinks) :
    ∃ (k : Nat) (rest : List Step),
      (GetUserData db ns sinks).2 =
          performAll db ns sinks ((exportPlan db ns).take k) [] ++
            (if db.Begin = none then [Event.Rollback] else []) ∧
      ((exportPlan db ns).take k).filter Step.isSink <+: exportRecords db ns ∧
      ((GetUserData db ns sinks).1 = none →
        (exportPlan db ns).take k = exportPlan db ns ∧
        ∀ e ∈ performAll db ns sinks ((exportPlan db ns).take k) [], e.err = none) ∧
      (∀ err, (GetUserData db ns sinks).1 = some err →
        ∃ pre last, performAll db ns sinks ((exportPlan db ns).take k) [] = pre ++ [last] ∧
          (∀ e ∈ pre, e.err = none) ∧ last.err = some err) ∧
      (GetUserData db ns sinks).2.filterMap Event.invoked ++ rest =
        (rowsOf (db.GetJournalEntriesExportForNamespace ns)).map
            (fun row => Step.onJournalEntry
              { ID := row.ID, Title := row.Title, Date := row.Date, Body := row.Body,
                Rating := row.Rating, Namespace := row.Namespace }) ++
          ((rowsOf (db.GetContactsExportForNamespace ns)).map
              (fun row => Step.onContact
                { ID := row.ID, FirstName := row.FirstName, LastName := row.LastName,
                  Nickname := row.Nickname, Email := row.Email, Pronouns := row.Pronouns,
                  Namespace := row.Namespace, Birthday := row.Birthday,
                  Address := row.Address, Notes := row.Notes }) ++
            ((rowsOf (db.GetDebtsExportForNamespace ns)).map
                (fun row => Step.onDebt
                  { ID := row.ID, Amount := row.Amount, Currency := row.Currency,
                    Description := row.Description, ContactID := row.ContactID }) ++
              (rowsOf (db.GetActivitiesExportForNamespace ns)).map
                (fun row => Step.onActivity
                  { ID := row.ID, Name := row.Name, Date := row.Date,
                    Description := row.Description, ContactID := row.ContactID }))) ∧
      ((GetUserData db ns sinks).1 = none → rest = []) := by
  obtain ⟨k, h1, h2, h3⟩ := walk_spec db ns sinks (exportPlan db ns) []
  have hlog : (GetUserData db ns sinks).2 =
      performAll db ns sinks ((exportPlan db ns).take k) [] ++
        (if db.Begin = none then [Event.Rollback] else []) := by
    rw [GetUserData_eq_walk, h1]; simp
  have hinv : (GetUserData db ns sinks).2.filterMap Event.invoked =
      ((exportPlan db ns).take k).filter Step.isSink := by
    rw [hlog, List.filterMap_append, performAll_invoked]
    split <;> simp [Event.invoked]
  have hpre : ((exportPlan db ns).take k).filter Step.isSink <+: exportRecords db ns := by
    rw [← exportPlan_filter_isSink]
    exact (List.take_prefix k _).filter _
  obtain ⟨rest, hrest⟩ := hpre
  refine ⟨k, rest, hlog, ⟨rest, hrest⟩, ?_, ?_, ?_, ?_⟩
  · rw [GetUserData_eq_walk]; exact h2
  · rw [GetUserData_eq_walk]; exact h3
  · rw [hinv, hrest]
    rfl
  · intro hn
    rw [GetUserData_eq_walk] at hn
    rw [(h2 hn).1, exportPlan_filter_isSink] at hrest
    simpa using hrest

/-- C7 at the export of `alice@example.com` from `aliceDB`: the three records handed
over before the failing read of the activities carry the fields of their rows, and no
row of the three tables read is left. -/
theorem GetUserData_walks_longest_prefix_witness :
    (∃ rest : List Step,
      (GetUserData aliceDB "alice@example.com" acceptAll).2.filterMap Event.invoked ++ rest =
        [Step.onJournalEntry ⟨7, "Monday", ⟨0⟩, "", 3, "alice@example.com"⟩,
          Step.onContact ⟨7, "Bob", "", "", "", "", "alice@example.com", none, "", ""⟩,
          Step.onDebt ⟨3, 100, "EUR", "", ⟨7, true⟩⟩]) ∧
    (GetUserData aliceDB "alice@example.com" acceptAll).2.filterMap Event.invoked =
      [Step.onJournalEntry ⟨7, "Monday", ⟨0⟩, "", 3, "alice@example.com"⟩,
        Step.onContact ⟨7, "Bob", "", "", "", "", "alice@example.com", none, "", ""⟩,
        Step.onDebt ⟨3, 100, "EUR", "", ⟨7, true⟩⟩] := by
  obtain ⟨_, rest, _, _, _, _, hrec, _⟩ :=
    GetUserData_walks_longest_prefix aliceDB "alice@example.com" acceptAll
  exact ⟨⟨rest, hrec⟩, rfl⟩

/-- The six runs of `DeleteUserData`: `Begin` fails, one of the four deletes is the
first to fail, or all of them succeed and `Commit` is called. -/
theorem DeleteUserData_cases (db : DeleteDB) (ns : String) :
    (∃ e, db.Begin = some e ∧ DeleteUserData db ns = (some e, [Event.Begin (some e)])) ∨
    (∃ e, db.Begin = none ∧ db.Delete .Activities ns = some e ∧
      DeleteUserData db ns = (some e, [Event.Begin none, Event.Delete .Activities ns (some e),
        Event.Rollback])) ∨
    (∃ e, db.Begin = none ∧ db.Delete .Activities ns = none ∧ db.Delete .Debts ns = some e ∧
      DeleteUserData db ns = (some e, [Event.Begin none, Event.Delete .Activities ns none,
        Event.Delete .Debts ns (some e), Event.Rollback])) ∨
    (∃ e, db.Begin = none ∧ db.Delete .Activities ns = none ∧ db.Delete .Debts ns = none ∧
      db.Delete .Contacts ns = some e ∧
      DeleteUserData db ns = (some e, [Event.Begin none, Event.Delete .Activities ns none,
        Event.Delete .Debts ns none, Event.Delete .Contacts ns (some e), Event.Rollback])) ∨
    (∃ e, db.Begin = none ∧ db.Delete .Activities ns = none ∧ db.Delete .Debts ns = none ∧
      db.Delete .Contacts ns = none ∧ db.Delete .JournalEntries ns = some e ∧
      DeleteUserData db ns = (some e, [Event.Begin none, Event.Delete .Activities ns none,
        Event.Delete .Debts ns none, Event.Delete .Contacts ns none,
        Event.Delete .JournalEntries ns (some e), Event.Rollback])) ∨
    (db.Begin = none ∧ db.Delete .Activities ns = none ∧ db.Delete .Debts ns = none ∧
      db.Delete .Contacts ns = none ∧ db.Delete .JournalEntries ns = none ∧
      DeleteUserData db ns = (db.Commit, [Event.Begin none, Event.Delete .Activities ns none,
        Event.Delete .Debts ns none, Event.Delete .Contacts ns none,
        Event.Delete .JournalEntries ns none, Event.Commit db.Commit, Event.Rollback])) := by
  unfold DeleteUserData deleteUserDataBody
  simp only [DeleteDB.Delete]
  cases hb : db.Begin with
  | some e0 => simp
  | none =>
    cases h1 : db.DeleteActivitiesForNamespace ns with
    | some e1 => simp
    | none =>
      cases h2 : db.DeleteDebtsForNamespace ns with
      | some e2 => simp
      | none =>
        cases h3 : db.DeleteContactsForNamespace ns with
        | some e3 => simp
        | none =>
          cases h4 : db.DeleteJournalEntriesForNamespace ns with
          | some e4 => simp
          | none => simp

/-- Running a list of calls keeps whatever every single call of the list keeps. -/
theorem foldl_keeps {σ α : Type} (exec : Event → σ → σ) (view : σ → α) (p : Event → Bool)
    (hp : ∀ e s, p e = true → view (exec e s) = view s) (l : List Event)
    (hl : ∀ e ∈ l, p e = true) (s : σ) :
    view (l.foldl (fun s e => exec e s) s) = view s := by
  induction l generalizing s with
  | nil => rfl
  | cons e l ih =>
    rw [List.foldl_cons, ih (fun x hx => hl x (List.mem_cons_of_mem _ hx)),
      hp e s (hl e (List.mem_cons_self _ _))]

/-- C8: `DeleteUserData` opens one transaction and issues its deletes in the order
Activities, Debts, Contacts, JournalEntries, each with the namespace argument and with the
outcome the store gives it. The calls it issues are given run by run: when `Begin` fails
nothing else is called; when a delete is the first to fail, the deletes before it and the
failed one have been issued, nothing is issued after it but the deferred rollback, and its
error is returned; when all four deletes succeed, all four have been issued, then `Commit`
is called and its result is returned. `Commit` is called if and only if all four deletes
succeeded, and its result is then the result of `DeleteUserData`. If a delete fails,
`DeleteUserData` returns that error, the failed delete is the last call before the
deferred rollback, and `Commit` is never called. Every call is transaction control or a
delete for the namespace argument, so whatever those calls leave alone (the rows of the
other namespaces) is left alone by `DeleteUserData`. -/
theorem DeleteUserData_ordered_all_or_nothing (db : DeleteDB) (ns : String) :
    (∀ e, db.Begin = some e → DeleteUserData db ns = (some e, [Event.Begin (some e)])) ∧
    (∀ e, db.Begin = none → db.Delete .Activities ns = some e →
      DeleteUserData db ns =
        (some e, [Event.Begin none, Event.Delete .Activities ns (some e), Event.Rollback])) ∧
    (∀ e, db.Begin = none → db.Delete .Activities ns = none →
      db.Delete .Debts ns = some e →
      DeleteUserData db ns =
        (some e, [Event.Begin none, Event.Delete .Activities ns none,
          Event.Delete .Debts ns (some e), Event.Rollback])) ∧
    (∀ e, db.Begin = none → db.Delete .Activities ns = none → db.Delete .Debts ns = none →
      db.Delete .Contacts ns = some e →
      DeleteUserData db ns =
        (some e, [Event.Begin none, Event.Delete .Activities ns none,
          Event.Delete .Debts ns none, Event.Delete .Contacts ns (some e),
          Event.Rollback])) ∧
    (∀ e, db.Begin = none → db.Delete .Activities ns = none → db.Delete .Debts ns = none →
      db.Delete .Contacts ns = none → db.Delete .JournalEntries ns = some e →
      DeleteUserData db ns =
        (some e, [Event.Begin none, Event.Delete .Activities ns none,
          Event.Delete .Debts ns none, Event.Delete .Contacts ns none,
          Event.Delete .JournalEntries ns (some e), Event.Rollback])) ∧
    (db.Begin = none → db.Delete .Activities ns = none → db.Delete .Debts ns = none →
      db.Delete .Contacts ns = none → db.Delete .JournalEntries ns = none →
      DeleteUserData db ns =
        (db.Commit, [Event.Begin none, Event.Delete .Activities ns none,
          Event.Delete .Debts ns none, Event.Delete .Contacts ns none,
          Event.Delete .JournalEntries ns none, Event.Commit db.Commit, Event.Rollback])) ∧
    (DeleteUserData db ns).2.head? = some (Event.Begin db.Begin) ∧
    ((DeleteUserData db ns).2.filterMap Event.deleted <+:
      [(Table.Activities, ns), (Table.Debts, ns), (Table.Contacts, ns),
        (Table.JournalEntries, ns)]) ∧
    (∀ t n err, Event.Delete t n err ∈ (DeleteUserData db ns).2 →
      n = ns ∧ err = db.Delete t ns) ∧
    ((∃ err, Event.Commit err ∈ (DeleteUserData db ns).2) ↔
      ∀ t, Event.Delete t ns none ∈ (DeleteUserData db ns).2) ∧
    ((∀ t, Event.Delete t ns none ∈ (DeleteUserData db ns).2) →
      (DeleteUserData db ns).1 = db.Commit ∧
      ∃ pre, (DeleteUserData db ns).2 = pre ++ [Event.Commit db.Commit, Event.Rollback]) ∧
    (∀ t err, Event.Delete t ns (some err) ∈ (DeleteUserData db ns).2 →
      (DeleteUserData db ns).1 = some err ∧
      (∃ pre, (DeleteUserData db ns).2 = pre ++ [Event.Delete t ns (some err), Event.Rollback] ∧
        ∀ e ∈ pre, e.err = none) ∧
      ∀ e, Event.Commit e ∉ (DeleteUserData db ns).2) ∧
    (∀ e ∈ (DeleteUserData db ns).2, e.isTxOrDeleteFor ns = true) ∧
    (∀ (σ α : Type) (exec : Event → σ → σ) (others : σ → α),
      (∀ e s, e.isTxOrDeleteFor ns = true → others (exec e s) = others s) →
      ∀ s, others ((DeleteUserData db ns).2.foldl (fun s e => exec e s) s) = others s) := by
  refine ⟨?_, ?_, ?_, ?_, ?_, ?_, ?_⟩
  · intro e hb
    simp [DeleteUserData, hb]
  · intro e hb h1
    simp only [DeleteDB.Delete] at h1
    simp [DeleteUserData, deleteUserDataBody, hb, h1]
  · intro e hb h1 h2
    simp only [DeleteDB.Delete] at h1 h2
    simp [DeleteUserData, deleteUserDataBody, hb, h1, h2]
  · intro e hb h1 h2 h3
    simp only [DeleteDB.Delete] at h1 h2 h3
    simp [DeleteUserData, deleteUserDataBody, hb, h1, h2, h3]
  · intro e hb h1 h2 h3 h4
    simp only [DeleteDB.Delete] at h1 h2 h3 h4
    simp [DeleteUserData, deleteUserDataBody, hb, h1, h2, h3, h4]
  · intro hb h1 h2 h3 h4
    simp only [DeleteDB.Delete] at h1 h2 h3 h4
    simp [DeleteUserData, deleteUserDataBody, hb, h1, h2, h3, h4]
  have key : ∀ e ∈ (DeleteUserData db ns).2, e.isTxOrDeleteFor ns = true := by
    rcases DeleteUserData_cases db ns with ⟨e, _, hv⟩ | ⟨e, _, _, hv⟩ | ⟨e, _, _, _, hv⟩ |
      ⟨e, _, _, _, _, hv⟩ | ⟨e, _, _, _, _, _, hv⟩ | ⟨_, _, _, _, _, hv⟩ <;>
    · rw [hv]; simp [Event.isTxOrDeleteFor]
  rw [← and_assoc, ← and_assoc, ← and_assoc, ← and_assoc, ← and_assoc, ← and_assoc]
  refine ⟨?_, fun σ α exec others h s => foldl_keeps exec others _ h _ key s⟩
  rw [and_assoc, and_assoc, and_assoc, and_assoc, and_assoc]
  rcases DeleteUserData_cases db ns with ⟨e, hb, hv⟩ | ⟨e, hb, h1, hv⟩ | ⟨e, hb, h1, h2, hv⟩ |
    ⟨e, hb, h1, h2, h3, hv⟩ | ⟨e, hb, h1, h2, h3, h4, hv⟩ | ⟨hb, h1, h2, h3, h4, hv⟩
  all_goals rw [hv]
  all_goals refine ⟨by simp [hb], by simp [Event.deleted], ?_⟩
  all_goals rw [← and_assoc, ← and_assoc, ← and_assoc]
  all_goals refine ⟨?_, by simp [Event.isTxOrDeleteFor]⟩
  all_goals rw [and_assoc, and_assoc]
  · refine ⟨?_, ?_, ?_, ?_⟩
    · simp
    · simp; exact ⟨.Activities, by simp⟩
    · intro h; have := h .Activities; simp at this
    · simp
  · refine ⟨?_, ?_, ?_, ?_⟩
    · intro t n err h; simp at h; casesm* _ ∨ _, _ ∧ _ <;> subst_vars <;> simp [*]
    · constructor
      · rintro ⟨err, h⟩; simp at h
      · intro h; have := h .Activities; simp at this
    · intro h; have := h .Activities; simp at this
    · intro t err h
      simp at h
      obtain ⟨rfl, rfl⟩ := h
      exact ⟨rfl, ⟨[Event.Begin none], rfl, by simp [Event.err]⟩, by simp⟩
  · refine ⟨?_, ?_, ?_, ?_⟩
    · intro t n err h; simp at h; casesm* _ ∨ _, _ ∧ _ <;> subst_vars <;> simp [*]
    · constructor
      · rintro ⟨err, h⟩; simp at h
      · intro h; have := h .Debts; simp at this
    · intro h; have := h .Debts; simp at this
    · intro t err h
      simp at h
      obtain ⟨rfl, rfl⟩ := h
      exact ⟨rfl, ⟨[Event.Begin none, Event.Delete .Activities ns none], rfl,
        by simp [Event.err]⟩, by simp⟩
  · refine ⟨?_, ?_, ?_, ?_⟩
    · intro t n err h; simp at h; casesm* _ ∨ _, _ ∧ _ <;> subst_vars <;> simp [*]
    · constructor
      · rintro ⟨err, h⟩; simp at h
      · intro h; have := h .Contacts; simp at this
    · intro h; have := h .Contacts; simp at this
    · intro t err h
      simp at h
      obtain ⟨rfl, rfl⟩ := h
      exact ⟨rfl, ⟨[Event.Begin none, Event.Delete .Activities ns none,
        Event.Delete .Debts ns none], rfl, by simp [Event.err]⟩, by simp⟩
  · refine ⟨?_, ?_, ?_, ?_⟩
    · intro t n err h; simp at h; casesm* _ ∨ _, _ ∧ _ <;> subst_vars <;> simp [*]
    · constructor
      · rintro ⟨err, h⟩; simp at h
      · intro h; have := h .JournalEntries; simp at this
    · intro h; have := h .JournalEntries; simp at this
    · intro t err h
      simp at h
      obtain ⟨rfl, rfl⟩ := h
      exact ⟨rfl, ⟨[Event.Begin none, Event.Delete .Activities ns none,
        Event.Delete .Debts ns none, Event.Delete .Contacts ns none], rfl,
        by simp [Event.err]⟩, by simp⟩
  · refine ⟨?_, ?_, ?_, ?_⟩
    · intro t n err h; simp at h; casesm* _ ∨ _, _ ∧ _ <;> subst_vars <;> simp [*]
    · constructor
      · intro _ t; cases t <;> simp
      · intro _; exact ⟨db.Commit, by simp⟩
    · intro _
      exact ⟨rfl, [Event.Begin none, Event.Delete .Activities ns none, Event.Delete .Debts ns none,
        Event.Delete .Contacts ns none, Event.Delete .JournalEntries ns none], rfl⟩
    · intro t err h; simp at h

/-- C8 at `unlockedDB`, where the four deletes are issued in order and committed, and at
`contactsLockedDB`, where the third delete fails: the journal entries are not deleted
and nothing is committed. -/
theorem DeleteUserData_ordered_all_or_nothing_witness :
    DeleteUserData unlockedDB "alice@example.com" =
      (none,
        [Event.Begin none,
          Event.Delete .Activities "alice@example.com" none,
          Event.Delete .Debts "alice@example.com" none,
          Event.Delete .Contacts "alice@example.com" none,
          Event.Delete .JournalEntries "alice@example.com" none,
          Event.Commit none,
          Event.Rollback]) ∧
    DeleteUserData contactsLockedDB "alice@example.com" =
      (some (.other "locked"),
        [Event.Begin none,
          Event.Delete .Activities "alice@example.com" none,
          Event.Delete .Debts "alice@example.com" none,
          Event.Delete .Contacts "alice@example.com" (some (.other "locked")),
          Event.Rollback]) :=
  ⟨(DeleteUserData_ordered_all_or_nothing unlockedDB "alice@example.com").2.2.2.2.2.1
      rfl rfl rfl rfl rfl,
    (DeleteUserData_ordered_all_or_nothing contactsLockedDB "alice@example.com").2.2.2.1
      (.other "locked") rfl rfl rfl rfl⟩

/-- The export of `alice@example.com` from `aliceDB`: three rows reach their sinks, the
read of the activities fails, and its error is returned. -/
theorem GetUserData_aliceDB :
    GetUserData aliceDB "alice@example.com" acceptAll =
      (some (.other "connection lost"),
        [Event.Begin none,
          Event.Get .JournalEntries "alice@example.com" none,
          Event.onJournalEntry ⟨7, "Monday", ⟨0⟩, "", 3, "alice@example.com"⟩ none,
          Event.Get .Contacts "alice@example.com" none,
          Event.onContact ⟨7, "Bob", "", "", "", "", "alice@example.com", none, "", ""⟩ none,
          Event.Get .Debts "alice@example.com" none,
          Event.onDebt ⟨3, 100, "EUR", "", ⟨7, true⟩⟩ none,
          Event.Get .Activities "alice@example.com" (some (.other "connection lost")),
          Event.Rollback]) := by
  rfl

/-- Delete-all on `contactsLockedDB`: the third delete fails, the journal entries are
not deleted and nothing is committed. -/
theorem DeleteUserData_contactsLockedDB :
    DeleteUserData contactsLockedDB "alice@example.com" =
      (some (.other "locked"),
        [Event.Begin none,
          Event.Delete .Activities "alice@example.com" none,
          Event.Delete .Debts "alice@example.com" none,
          Event.Delete .Contacts "alice@example.com" (some (.other "locked")),
          Event.Rollback]) := by
  rfl

/-! ## The session authorizer, branch by branch -/

theorem Request.Cookie_error (r : Request) (name : String) (err : Error)
    (h : r.Cookie name = .error err) : err = Error.ErrNoCookie := by
  unfold Request.Cookie at h
  split at h
  · cases h; rfl
  · split at h
    · cases h
    · cases h; rfl

theorem Request.Cookie_absent (r : Request) (name : String)
    (h : ∀ c ∈ r.Cookies, c.Name ≠ name) : r.Cookie name = .error Error.ErrNoCookie := by
  unfold Request.Cookie
  have : r.Cookies.find? (fun c => c.Name == name) = none := by
    rw [List.find?_eq_none]
    intro c hc
    simpa using h c hc
  rw [this]
  split <;> rfl

theorem authorize_localize_error (url : NetURL) (b : Controller) (now : Time)
    (w : ResponseWriter) (r : Request) (err : Error) (hloc : b.localize r = .error err) :
    authorize url b now (some w) r =
      ((false, {}, StatusInternalServerError, some (.join .errCouldNotLocalize err)), some w) := by
  simp [authorize, hloc]

theorem authorize_consent_given (url : NetURL) (b : Controller) (now : Time)
    (w : ResponseWriter) (r : Request) (locale : Locale) (err : Error)
    (hloc : b.localize r = .ok locale) (hrt : r.Cookie b.refreshTokenKey = .error err)
    (hconsent : TrimSpace (r.FormValue "consent") = "on") :
    authorize url b now (some w) r =
      ((true, {}, StatusTemporaryRedirect, none),
        some (w ++ [Effect.Redirect (b.config.AuthCodeURL (url.QueryEscape (returnURL r)))
          StatusFound])) := by
  have he := Request.Cookie_error r _ err hrt
  subst he
  simp [authorize, hloc, hrt, hconsent, Error.Is]

theorem authorize_consent_missing (url : NetURL) (b : Controller) (now : Time)
    (w : ResponseWriter) (r : Request) (locale : Locale) (err : Error)
    (hloc : b.localize r = .ok locale) (hrt : r.Cookie b.refreshTokenKey = .error err)
    (hconsent : TrimSpace (r.FormValue "consent") ≠ "on") :
    authorize url b now (some w) r =
      (match b.tpl.ExecuteTemplate "redirect.html" (consentData b locale) with
        | some err =>
          (false, {}, StatusInternalServerError, some (.join .errCouldNotRenderTemplate err))
        | none => (true, {}, StatusTemporaryRedirect, none),
        some (w ++ [Effect.ExecuteTemplate "redirect.html" (consentData b locale)])) := by
  have he := Request.Cookie_error r _ err hrt
  subst he
  simp only [authorize, hloc, hrt, Error.Is]
  cases h : b.tpl.ExecuteTemplate "redirect.html" (consentData b locale) <;> simp [hconsent]

theorem authorize_identity_missing (url : NetURL) (b : Controller) (now : Time)
    (w : ResponseWriter) (r : Request) (locale : Locale) (rt : Cookie) (err : Error)
    (hloc : b.localize r = .ok locale) (hrt : r.Cookie b.refreshTokenKey = .ok rt)
    (hit : r.Cookie b.idTokenKey = .error err) :
    authorize url b now (some w) r =
      ((true, {}, StatusTemporaryRedirect, none),
        some (w ++ [Effect.Redirect (b.config.AuthCodeURL (url.QueryEscape (url.String r.URL)))
          StatusFound])) := by
  have he := Request.Cookie_error r _ err hit
  subst he
  simp [authorize, hloc, hrt, hit, Error.Is]

theorem authorize_verified (url : NetURL) (b : Controller) (now : Time)
    (w : ResponseWriter) (r : Request) (locale : Locale) (rt it : Cookie) (id : IDToken)
    (hloc : b.localize r = .ok locale) (hrt : r.Cookie b.refreshTokenKey = .ok rt)
    (hit : r.Cookie b.idTokenKey = .ok it) (hver : b.verifier.Verify it.Value = .ok id) :
    authorize url b now (some w) r = (authorizeClaims url b locale it.Value id, some w) := by
  simp [authorize, hloc, hrt, hit, hver]

theorem authorize_soft_failure (url : NetURL) (b : Controller) (now : Time)
    (w : ResponseWriter) (r : Request) (locale : Locale) (rt it : Cookie) (err : Error)
    (hloc : b.localize r = .ok locale) (hrt : r.Cookie b.refreshTokenKey = .ok rt)
    (hit : r.Cookie b.idTokenKey = .ok it) (hver : b.verifier.Verify it.Value = .error err)
    (hsoft : (∃ e, b.config.TokenSource rt.Value = .error e) ∨
      (∃ tok, b.config.TokenSource rt.Value = .ok tok ∧
        (tok.Extra "id_token").asString = none) ∨
      (∃ tok idToken e, b.config.TokenSource rt.Value = .ok tok ∧
        (tok.Extra "id_token").asString = some idToken ∧
        b.verifier.Verify idToken = .error e)) :
    authorize url b now (some w) r =
      ((true, {}, StatusOK, none),
        some (w ++ [Effect.Redirect (b.config.AuthCodeURL (url.QueryEscape (returnURL r)))
          StatusFound])) := by
  rcases hsoft with ⟨e, h⟩ | ⟨tok, h, h2⟩ | ⟨tok, idToken, e, h, h2, h3⟩
  · simp [authorize, hloc, hrt, hit, hver, h]
  · simp [authorize, hloc, hrt, hit, hver, h, h2]
  · simp [authorize, hloc, hrt, hit, hver, h, h2, h3]

theorem authorize_refreshed (url : NetURL) (b : Controller) (now : Time)
    (w : ResponseWriter) (r : Request) (locale : Locale) (rt it : Cookie) (err : Error)
    (tok : Token) (idToken : String) (id : IDToken)
    (hloc : b.localize r = .ok locale) (hrt : r.Cookie b.refreshTokenKey = .ok rt)
    (hit : r.Cookie b.idTokenKey = .ok it) (hver : b.verifier.Verify it.Value = .error err)
    (htok : b.config.TokenSource rt.Value = .ok tok)
    (hid : (tok.Extra "id_token").asString = some idToken)
    (hnew : b.verifier.Verify idToken = .ok id) :
    authorize url b now (some w) r =
      (authorizeClaims url b locale idToken id,
        some (w ++ ((if tok.RefreshToken = "" then []
            else [Effect.SetCookie (refreshTokenCookie b now tok.RefreshToken)]) ++
          [Effect.SetCookie (idTokenCookie b idToken tok.Expiry)]))) := by
  simp only [authorize, hloc, hrt, hit, hver, htok, hid, hnew]
  by_cases h : tok.RefreshToken = "" <;> simp [h]

theorem authorizeClaims_unverified (url : NetURL) (b : Controller) (locale : Locale)
    (idToken : String) (id : IDToken) (claims : Claims) (hclaims : id.Claims = .ok claims)
    (hunv : claims.EmailVerified = false) :
    authorizeClaims url b locale idToken id =
      (false, {}, StatusUnauthorized, some (.join .errCouldNotLogin .errEmailNotVerified)) := by
  simp [authorizeClaims, hclaims, hunv]

theorem authorizeClaims_fst (url : NetURL) (b : Controller) (locale : Locale)
    (idToken : String) (id : IDToken) : (authorizeClaims url b locale idToken id).1 = false := by
  unfold authorizeClaims
  split
  · rfl
  · split
    · rfl
    · split <;> rfl

/-- C3, as stated, fails when the locale does not resolve: the request carries a refresh
credential and an identity credential that verifies with `email_verified=false`, but
`authorize` returns status 500 with an error that does not wrap `errEmailNotVerified`. -/
theorem authorize_unverified_email_counterexample :
    (exRequest "??" [refreshCookie "rt-good", idCookie "id-unverified"] []).Cookie
        exController.refreshTokenKey = .ok (refreshCookie "rt-good") ∧
    (exRequest "??" [refreshCookie "rt-good", idCookie "id-unverified"] []).Cookie
        exController.idTokenKey = .ok (idCookie "id-unverified") ∧
    (∃ id, exController.verifier.Verify "id-unverified" = .ok id ∧
      id.Claims = .ok ⟨"alice@example.com", false⟩) ∧
    authorize exURL exController ⟨0⟩ (some [])
        (exRequest "??" [refreshCookie "rt-good", idCookie "id-unverified"] []) =
      ((false, {}, StatusInternalServerError,
        some (.join .errCouldNotLocalize (.other "bad language"))), some []) ∧
    StatusInternalServerError ≠ StatusUnauthorized ∧
    (Error.join .errCouldNotLocalize (.other "bad language")).Is .errEmailNotVerified = false := by
  refine ⟨rfl, rfl, ⟨_, rfl, rfl⟩, rfl, by decide, rfl⟩

/-- C3, amended: in enforcing mode, for every request whose locale resolves and that
carries a refresh credential and an identity credential that verifies (directly, or after
a successful silent refresh) and whose decoded claims have `email_verified=false`,
`authorize` returns `mustRedirect=false`, an empty session, status 401 and an error that
wraps `errEmailNotVerified`, and what it writes on the response holds no redirect. -/
theorem authorize_unverified_email_unauthorized (url : NetURL) (b : Controller) (now : Time)
    (w : ResponseWriter) (r : Request) (locale : Locale) (rt it : Cookie) (id : IDToken)
    (claims : Claims)
    (hloc : b.localize r = .ok locale)
    (hrt : r.Cookie b.refreshTokenKey = .ok rt)
    (hit : r.Cookie b.idTokenKey = .ok it)
    (hver : b.verifier.Verify it.Value = .ok id ∨
      ((∃ err, b.verifier.Verify it.Value = .error err) ∧
        ∃ tok idToken, b.config.TokenSource rt.Value = .ok tok ∧
          (tok.Extra "id_token").asString = some idToken ∧
          b.verifier.Verify idToken = .ok id))
    (hclaims : id.Claims = .ok claims)
    (hunv : claims.EmailVerified = false) :
    (authorize url b now (some w) r).1 =
      (false, {}, StatusUnauthorized, some (.join .errCouldNotLogin .errEmailNotVerified)) ∧
    (Error.join .errCouldNotLogin .errEmailNotVerified).Is .errEmailNotVerified = true ∧
    ∃ ws, (authorize url b now (some w) r).2 = some (w ++ ws) ∧
      ∀ u code, Effect.Redirect u code ∉ ws := by
  rcases hver with hver | ⟨⟨err, hver⟩, tok, idToken, htok, hid, hnew⟩
  · rw [authorize_verified url b now w r locale rt it id hloc hrt hit hver,
      authorizeClaims_unverified url b locale it.Value id claims hclaims hunv]
    exact ⟨rfl, rfl, [], by simp, by simp⟩
  · rw [authorize_refreshed url b now w r locale rt it err tok idToken id hloc hrt hit hver htok
        hid hnew,
      authorizeClaims_unverified url b locale idToken id claims hclaims hunv]
    refine ⟨rfl, rfl, _, rfl, ?_⟩
    intro u code
    by_cases h : tok.RefreshToken = "" <;> simp [h]

/-- C3, amended, at a request whose identity credential verifies directly and at one
whose identity credential verifies only after the silent refresh; both report an
unverified email. -/
theorem authorize_unverified_email_unauthorized_witness :
    (authorize exURL exController ⟨0⟩ (some [])
        (exRequest "en" [refreshCookie "rt-good", idCookie "id-unverified"] [])).1 =
      (false, {}, 401, some (.join .errCouldNotLogin .errEmailNotVerified)) ∧
    (authorize exURL exController ⟨0⟩ (some [])
        (exRequest "en" [refreshCookie "rt-unverified", idCookie "id-old"] [])).1 =
      (false, {}, 401, some (.join .errCouldNotLogin .errEmailNotVerified)) :=
  ⟨(authorize_unverified_email_unauthorized exURL exController ⟨0⟩ []
      (exRequest "en" [refreshCookie "rt-good", idCookie "id-unverified"] []) exLocale
      (refreshCookie "rt-good") (idCookie "id-unverified")
      ⟨.ok ⟨"alice@example.com", false⟩⟩ ⟨"alice@example.com", false⟩ rfl rfl rfl
      (Or.inl rfl) rfl rfl).1,
    (authorize_unverified_email_unauthorized exURL exController ⟨0⟩ []
      (exRequest "en" [refreshCookie "rt-unverified", idCookie "id-old"] []) exLocale
      (refreshCookie "rt-unverified") (idCookie "id-old") ⟨.ok ⟨"alice@example.com", false⟩⟩
      ⟨"alice@example.com", false⟩ rfl rfl rfl
      (Or.inr ⟨⟨_, rfl⟩, _, _, rfl, rfl, rfl⟩) rfl rfl).1⟩

/-- C4: in enforcing mode, for every request with no refresh-credential cookie for which
the locale resolves and the template renders: if the trimmed form value `consent` is
`on`, `authorize` writes exactly a redirect to `AuthCodeURL(state)`, the state being the
query-escaped return address (the `Referer` header if it is not blank, otherwise `/`);
otherwise it writes exactly the rendering of `redirect.html` with
`RequiresPrivacyPolicyConsent=true`, hence no redirect. In both cases it returns
`mustRedirect=true`, an empty session and a nil error. -/
theorem authorize_without_refresh_cookie (url : NetURL) (b : Controller) (now : Time)
    (w : ResponseWriter) (r : Request) (locale : Locale)
    (hloc : b.localize r = .ok locale)
    (hrt : r.Cookie b.refreshTokenKey = .error Error.ErrNoCookie)
    (htpl : b.tpl.ExecuteTemplate "redirect.html" (consentData b locale) = none) :
    (TrimSpace (r.FormValue "consent") = "on" →
      authorize url b now (some w) r =
        ((true, {}, StatusTemporaryRedirect, none),
          some (w ++ [Effect.Redirect
            (b.config.AuthCodeURL (url.QueryEscape
              (if TrimSpace (r.HeaderGet "Referer") = "" then "/" else r.HeaderGet "Referer")))
            StatusFound]))) ∧
    (TrimSpace (r.FormValue "consent") ≠ "on" →
      authorize url b now (some w) r =
        ((true, {}, StatusTemporaryRedirect, none),
          some (w ++ [Effect.ExecuteTemplate "redirect.html" (consentData b locale)]))) ∧
    (consentData b locale).RequiresPrivacyPolicyConsent = true := by
  refine ⟨fun h => ?_, fun h => ?_, rfl⟩
  · rw [authorize_consent_given url b now w r locale _ hloc hrt h]
    simp [returnURL]
  · rw [authorize_consent_missing url b now w r locale _ hloc hrt h, htpl]

/-- C4 at two requests without cookies that come from `/contacts`: with `consent= on `
the redirect carries the escaped `/contacts`; with `consent=off` the prompt is
rendered. -/
theorem authorize_without_refresh_cookie_witness :
    authorize exURL exController ⟨0⟩ (some []) (exRequest "en" [] [("consent", " on ")]) =
      ((true, {}, 307, none),
        some [Effect.Redirect "https://idp.example.com/authorize?state=%2Fcontacts" 302]) ∧
    authorize exURL exController ⟨0⟩ (some []) (exRequest "en" [] [("consent", "off")]) =
      ((true, {}, 307, none),
        some [Effect.ExecuteTemplate "redirect.html"
          { toPageData :=
              { toUserData := { Locale := some exLocale }
                Page := "Privacy policy consent"
                PrivacyURL := "/privacy"
                ImprintURL := "/imprint" }
            RequiresPrivacyPolicyConsent := true }]) :=
  ⟨(authorize_without_refresh_cookie exURL exController ⟨0⟩ []
      (exRequest "en" [] [("consent", " on ")]) exLocale rfl rfl rfl).1 rfl,
    (authorize_without_refresh_cookie exURL exController ⟨0⟩ []
      (exRequest "en" [] [("consent", "off")]) exLocale rfl rfl rfl).2.1 (by decide)⟩

/-- C5: in enforcing mode, when the identity credential of the cookie fails verification
and the refresh exchange succeeds with an identity credential that verifies, `authorize`
writes exactly these cookies: if the exchange returned a non-empty refresh credential, a
refresh-credential cookie whose value is that credential, followed by the
identity-credential cookie; if it returned an empty refresh credential, the
identity-credential cookie alone, so no refresh-credential cookie at all. The
identity-credential cookie carries the new identity credential and the expiry of the
exchange. -/
theorem authorize_refresh_rewrites_cookies (url : NetURL) (b : Controller) (now : Time)
    (w : ResponseWriter) (r : Request) (locale : Locale) (rt it : Cookie) (err : Error)
    (tok : Token) (idToken : String) (id : IDToken)
    (hloc : b.localize r = .ok locale)
    (hrt : r.Cookie b.refreshTokenKey = .ok rt)
    (hit : r.Cookie b.idTokenKey = .ok it)
    (hver : b.verifier.Verify it.Value = .error err)
    (htok : b.config.TokenSource rt.Value = .ok tok)
    (hid : (tok.Extra "id_token").asString = some idToken)
    (hnew : b.verifier.Verify idToken = .ok id) :
    (tok.RefreshToken ≠ "" →
      (authorize url b now (some w) r).2 =
        some (w ++ [Effect.SetCookie (refreshTokenCookie b now tok.RefreshToken),
          Effect.SetCookie (idTokenCookie b idToken tok.Expiry)])) ∧
    (tok.RefreshToken = "" →
      (authorize url b now (some w) r).2 =
          some (w ++ [Effect.SetCookie (idTokenCookie b idToken tok.Expiry)]) ∧
        (b.refreshTokenKey ≠ b.idTokenKey →
          ∀ c, Effect.SetCookie c ∈ [Effect.SetCookie (idTokenCookie b idToken tok.Expiry)] →
            c.Name ≠ b.refreshTokenKey)) ∧
    (refreshTokenCookie b now tok.RefreshToken).Name = b.refreshTokenKey ∧
    (refreshTokenCookie b now tok.RefreshToken).Value = tok.RefreshToken ∧
    (idTokenCookie b idToken tok.Expiry).Name = b.idTokenKey ∧
    (idTokenCookie b idToken tok.Expiry).Value = idToken ∧
    (idTokenCookie b idToken tok.Expiry).Expires = tok.Expiry := by
  rw [authorize_refreshed url b now w r locale rt it err tok idToken id hloc hrt hit hver htok
    hid hnew]
  refine ⟨fun h => by simp [h], fun h => ⟨by simp [h], ?_⟩, rfl, rfl, rfl, rfl, rfl⟩
  intro hne c hc
  simp only [List.mem_singleton, Effect.SetCookie.injEq] at hc
  subst hc
  exact fun h => hne h.symm

/-- C5 at two requests with an expired identity credential: the exchange of `rt-good`
returns the refresh credential `rt-new`, written with a lifetime of 365 days; the
exchange of `rt-keep` returns none, and only the identity-credential cookie is
written. -/
theorem authorize_refresh_rewrites_cookies_witness :
    (authorize exURL exController ⟨0⟩ (some [])
        (exRequest "en" [refreshCookie "rt-good", idCookie "id-old"] [])).2 =
      some [Effect.SetCookie
          { Name := "refresh_token", Value := "rt-new", Path := "/",
            Expires := ⟨31536000000000000⟩, Secure := true, HttpOnly := true,
            SameSite := SameSite.SameSiteStrictMode },
        Effect.SetCookie
          { Name := "id_token", Value := "id-new", Path := "/", Expires := ⟨1000⟩,
            Secure := true, HttpOnly := true, SameSite := SameSite.SameSiteStrictMode }] ∧
    (authorize exURL exController ⟨0⟩ (some [])
        (exRequest "en" [refreshCookie "rt-keep", idCookie "id-old"] [])).2 =
      some [Effect.SetCookie
          { Name := "id_token", Value := "id-new", Path := "/", Expires := ⟨1000⟩,
            Secure := true, HttpOnly := true, SameSite := SameSite.SameSiteStrictMode }] :=
  ⟨(authorize_refresh_rewrites_cookies exURL exController ⟨0⟩ []
      (exRequest "en" [refreshCookie "rt-good", idCookie "id-old"] []) exLocale
      (refreshCookie "rt-good") (idCookie "id-old") (.other "expired")
      ⟨"rt-new", ⟨1000⟩, [("id_token", .string "id-new")]⟩ "id-new"
      ⟨.ok ⟨"alice@example.com", true⟩⟩ rfl rfl rfl rfl rfl rfl rfl).1 (by decide),
    ((authorize_refresh_rewrites_cookies exURL exController ⟨0⟩ []
      (exRequest "en" [refreshCookie "rt-keep", idCookie "id-old"] []) exLocale
      (refreshCookie "rt-keep") (idCookie "id-old") (.other "expired")
      ⟨"", ⟨1000⟩, [("id_token", .string "id-new")]⟩ "id-new"
      ⟨.ok ⟨"alice@example.com", true⟩⟩ rfl rfl rfl rfl rfl rfl rfl).2.1 rfl).1⟩

/-- C6: in enforcing mode, when both cookies are present and the identity credential
fails verification, each of the three soft failures (the refresh exchange returns an
error; the exchanged token carries no string `id_token`; the refreshed identity
credential fails verification) makes `authorize` write exactly one redirect, to
`AuthCodeURL` of the escaped return address, and return `mustRedirect=true` with an empty
session and a nil error; no cookie is written. -/
theorem authorize_soft_failure_redirects (url : NetURL) (b : Controller) (now : Time)
    (w : ResponseWriter) (r : Request) (locale : Locale) (rt it : Cookie) (err : Error)
    (hloc : b.localize r = .ok locale)
    (hrt : r.Cookie b.refreshTokenKey = .ok rt)
    (hit : r.Cookie b.idTokenKey = .ok it)
    (hver : b.verifier.Verify it.Value = .error err)
    (hsoft : (∃ e, b.config.TokenSource rt.Value = .error e) ∨
      (∃ tok, b.config.TokenSource rt.Value = .ok tok ∧
        (tok.Extra "id_token").asString = none) ∨
      (∃ tok idToken e, b.config.TokenSource rt.Value = .ok tok ∧
        (tok.Extra "id_token").asString = some idToken ∧
        b.verifier.Verify idToken = .error e)) :
    authorize url b now (some w) r =
      ((true, {}, StatusOK, none),
        some (w ++ [Effect.Redirect (b.config.AuthCodeURL (url.QueryEscape (returnURL r)))
          StatusFound])) ∧
    ∀ c, Effect.SetCookie c ∉
      [Effect.Redirect (b.config.AuthCodeURL (url.QueryEscape (returnURL r))) StatusFound] := by
  refine ⟨authorize_soft_failure url b now w r locale rt it err hloc hrt hit hver hsoft, ?_⟩
  intro c
  simp

/-- C6 at three requests from `/contacts` with an expired identity credential: the
provider rejects `rt-bad`, answers `rt-noid` without a string `id_token`, and answers
`rt-stale` with an identity credential that fails verification. -/
theorem authorize_soft_failure_redirects_witness :
    authorize exURL exController ⟨0⟩ (some [])
        (exRequest "en" [refreshCookie "rt-bad", idCookie "id-old"] []) =
      ((true, {}, 200, none),
        some [Effect.Redirect "https://idp.example.com/authorize?state=%2Fcontacts" 302]) ∧
    authorize exURL exController ⟨0⟩ (some [])
        (exRequest "en" [refreshCookie "rt-noid", idCookie "id-old"] []) =
      ((true, {}, 200, none),
        some [Effect.Redirect "https://idp.example.com/authorize?state=%2Fcontacts" 302]) ∧
    authorize exURL exController ⟨0⟩ (some [])
        (exRequest "en" [refreshCookie "rt-stale", idCookie "id-old"] []) =
      ((true, {}, 200, none),
        some [Effect.Redirect "https://idp.example.com/authorize?state=%2Fcontacts" 302]) :=
  ⟨(authorize_soft_failure_redirects exURL exController ⟨0⟩ []
      (exRequest "en" [refreshCookie "rt-bad", idCookie "id-old"] []) exLocale
      (refreshCookie "rt-bad") (idCookie "id-old") (.other "expired") rfl rfl rfl rfl
      (Or.inl ⟨_, rfl⟩)).1,
    (authorize_soft_failure_redirects exURL exController ⟨0⟩ []
      (exRequest "en" [refreshCookie "rt-noid", idCookie "id-old"] []) exLocale
      (refreshCookie "rt-noid") (idCookie "id-old") (.other "expired") rfl rfl rfl rfl
      (Or.inr (Or.inl ⟨_, rfl, rfl⟩))).1,
    (authorize_soft_failure_redirects exURL exController ⟨0⟩ []
      (exRequest "en" [refreshCookie "rt-stale", idCookie "id-old"] []) exLocale
      (refreshCookie "rt-stale") (idCookie "id-old") (.other "expired") rfl rfl rfl rfl
      (Or.inr (Or.inr ⟨_, _, _, rfl, rfl, rfl⟩))).1⟩

/-- C9, as stated, fails: the request carries a refresh-credential cookie and
`consent=on`, and its identity credential verifies, so `authorize` returns the session
with `mustRedirect=false` and writes nothing, in particular no redirect. -/
theorem authorize_consent_with_session_counterexample :
    (exRequest "en" [refreshCookie "rt-good", idCookie "id-ok"] [("consent", "on")]).Cookie
        exController.refreshTokenKey = .ok (refreshCookie "rt-good") ∧
    TrimSpace ((exRequest "en" [refreshCookie "rt-good", idCookie "id-ok"]
        [("consent", "on")]).FormValue "consent") = "on" ∧
    authorize exURL exController ⟨0⟩ (some [])
        (exRequest "en" [refreshCookie "rt-good", idCookie "id-ok"] [("consent", "on")]) =
      ((false,
        { Email := "alice@example.com"
          LogoutURL := "https://idp.example.com/oidc/logout?id_token_hint=id-ok&post_logout_redirect_uri=https://app.example.com/authorize"
          Locale := some exLocale },
        StatusOK, none), some []) := by
  refine ⟨rfl, rfl, rfl⟩

/-- C9, amended: for every request whose locale resolves and that carries a
refresh-credential cookie, whatever its form value `consent` (in particular `on`),
`authorize` in enforcing mode redirects to the authorization endpoint exactly when the
identity-credential cookie is missing (the state is then the escaped current request URL)
or the identity credential fails verification and the silent refresh fails softly (the
state is then the escaped return address); when the identity credential verifies,
directly or after the refresh, it writes no redirect. -/
theorem authorize_with_refresh_cookie_redirects (url : NetURL) (b : Controller) (now : Time)
    (w : ResponseWriter) (r : Request) (locale : Locale) (rt : Cookie)
    (hloc : b.localize r = .ok locale)
    (hrt : r.Cookie b.refreshTokenKey = .ok rt) :
    (r.Cookie b.idTokenKey = .error Error.ErrNoCookie →
      (authorize url b now (some w) r).2 =
        some (w ++ [Effect.Redirect
          (b.config.AuthCodeURL (url.QueryEscape (url.String r.URL))) StatusFound])) ∧
    (∀ it err, r.Cookie b.idTokenKey = .ok it → b.verifier.Verify it.Value = .error err →
      ((∃ e, b.config.TokenSource rt.Value = .error e) ∨
        (∃ tok, b.config.TokenSource rt.Value = .ok tok ∧
          (tok.Extra "id_token").asString = none) ∨
        (∃ tok idToken e, b.config.TokenSource rt.Value = .ok tok ∧
          (tok.Extra "id_token").asString = some idToken ∧
          b.verifier.Verify idToken = .error e)) →
      (authorize url b now (some w) r).2 =
        some (w ++ [Effect.Redirect
          (b.config.AuthCodeURL (url.QueryEscape (returnURL r))) StatusFound])) ∧
    (∀ it id, r.Cookie b.idTokenKey = .ok it → b.verifier.Verify it.Value = .ok id →
      (authorize url b now (some w) r).1.1 = false ∧
      (authorize url b now (some w) r).2 = some w) ∧
    (∀ it err tok idToken id, r.Cookie b.idTokenKey = .ok it →
      b.verifier.Verify it.Value = .error err →
      b.config.TokenSource rt.Value = .ok tok →
      (tok.Extra "id_token").asString = some idToken →
      b.verifier.Verify idToken = .ok id →
      (authorize url b now (some w) r).1.1 = false ∧
      ∃ ws, (authorize url b now (some w) r).2 = some (w ++ ws) ∧
        ∀ u code, Effect.Redirect u code ∉ ws) := by
  refine ⟨fun h => ?_, fun it err hit hver hsoft => ?_, fun it id hit hver => ?_,
    fun it err tok idToken id hit hver htok hid hnew => ?_⟩
  · rw [authorize_identity_missing url b now w r locale rt _ hloc hrt h]
  · rw [authorize_soft_failure url b now w r locale rt it err hloc hrt hit hver hsoft]
  · rw [authorize_verified url b now w r locale rt it id hloc hrt hit hver]
    exact ⟨authorizeClaims_fst url b locale it.Value id, rfl⟩
  · rw [authorize_refreshed url b now w r locale rt it err tok idToken id hloc hrt hit hver htok
      hid hnew]
    refine ⟨authorizeClaims_fst url b locale idToken id, _, rfl, ?_⟩
    intro u code
    by_cases h : tok.RefreshToken = "" <;> simp [h]

/-- C9, amended, at two requests for `/journal` coming from `/contacts` that carry a
refresh-credential cookie and `consent=on`: without an identity-credential cookie the
redirect carries the escaped `/journal`; with an identity credential that verifies
nothing is written. -/
theorem authorize_with_refresh_cookie_redirects_witness :
    (authorize exURL exController ⟨0⟩ (some [])
        (exRequest "en" [refreshCookie "rt-good"] [("consent", "on")])).2 =
      some [Effect.Redirect "https://idp.example.com/authorize?state=%2Fjournal" 302] ∧
    (authorize exURL exController ⟨0⟩ (some [])
        (exRequest "en" [refreshCookie "rt-good", idCookie "id-ok"] [("consent", "on")])).2 =
      some [] :=
  ⟨(authorize_with_refresh_cookie_redirects exURL exController ⟨0⟩ []
      (exRequest "en" [refreshCookie "rt-good"] [("consent", "on")]) exLocale
      (refreshCookie "rt-good") rfl rfl).1 rfl,
    ((authorize_with_refresh_cookie_redirects exURL exController ⟨0⟩ []
      (exRequest "en" [refreshCookie "rt-good", idCookie "id-ok"] [("consent", "on")]) exLocale
      (refreshCookie "rt-good") rfl rfl).2.2.1 (idCookie "id-ok")
      ⟨.ok ⟨"alice@example.com", true⟩⟩ rfl rfl).2⟩

/-- C10, as stated, fails when the locale does not resolve: the request carries a
refresh-credential cookie and no identity-credential cookie, but `authorize` returns
`mustRedirect=false` with an error and writes no redirect. -/
theorem authorize_identity_missing_counterexample :
    (exRequest "??" [refreshCookie "rt-good"] []).Cookie exController.refreshTokenKey =
      .ok (refreshCookie "rt-good") ∧
    (exRequest "??" [refreshCookie "rt-good"] []).Cookie exController.idTokenKey =
      .error Error.ErrNoCookie ∧
    authorize exURL exController ⟨0⟩ (some []) (exRequest "??" [refreshCookie "rt-good"] []) =
      ((false, {}, StatusInternalServerError,
        some (.join .errCouldNotLocalize (.other "bad language"))), some []) := by
  refine ⟨rfl, rfl, rfl⟩

/-- C10, amended: in enforcing mode, for every request whose locale resolves and that
carries a refresh-credential cookie but no identity-credential cookie, `authorize` writes
exactly one redirect, to `AuthCodeURL(state)` with the state the query-escaped current
request URL (`r.URL.String()`, not the `Referer` header), whatever the form value
`consent`, so the consent prompt is never rendered, and returns `mustRedirect=true` with
an empty session and a nil error. -/
theorem authorize_identity_missing_redirects (url : NetURL) (b : Controller) (now : Time)
    (w : ResponseWriter) (r : Request) (locale : Locale) (rt : Cookie)
    (hloc : b.localize r = .ok locale)
    (hrt : r.Cookie b.refreshTokenKey = .ok rt)
    (hit : r.Cookie b.idTokenKey = .error Error.ErrNoCookie) :
    authorize url b now (some w) r =
      ((true, {}, StatusTemporaryRedirect, none),
        some (w ++ [Effect.Redirect
          (b.config.AuthCodeURL (url.QueryEscape (url.String r.URL))) StatusFound])) ∧
    ∀ name data, Effect.ExecuteTemplate name data ∉
      [Effect.Redirect (b.config.AuthCodeURL (url.QueryEscape (url.String r.URL)))
        StatusFound] := by
  refine ⟨authorize_identity_missing url b now w r locale rt _ hloc hrt hit, ?_⟩
  intro name data
  simp

/-- C10, amended, at a request for `/journal` coming from `/contacts` that carries only
the refresh-credential cookie: the state is the escaped `/journal`, with `consent=off`
as well. -/
theorem authorize_identity_missing_redirects_witness :
    authorize exURL exController ⟨0⟩ (some [])
        (exRequest "en" [refreshCookie "rt-good"] [("consent", "off")]) =
      ((true, {}, 307, none),
        some [Effect.Redirect "https://idp.example.com/authorize?state=%2Fjournal" 302]) :=
  (authorize_identity_missing_redirects exURL exController ⟨0⟩ []
    (exRequest "en" [refreshCookie "rt-good"] [("consent", "off")]) exLocale
    (refreshCookie "rt-good") rfl rfl rfl).1

/-! ## The session authorizer, case by case -/

/-- The logout URL is built exactly when the issuer URL parses. -/
theorem logoutURL_ok (url : NetURL) (b : Controller) (idToken : String) (u : URL)
    (hparse : url.Parse b.oidcIssuer = .ok u) :
    logoutURL url b idToken =
      .ok (url.String (url.JoinPath
        { u with RawQuery := url.Encode (((url.Query u).Set "id_token_hint" idToken).Set
          "post_logout_redirect_uri" b.oidcRedirectURL) } ["oidc", "logout"])) := by
  simp [logoutURL, hparse]

/-- The logout URL fails exactly as the parsing of the issuer URL fails. -/
theorem logoutURL_error (url : NetURL) (b : Controller) (idToken : String) (err : Error)
    (h : logoutURL url b idToken = .error err) : url.Parse b.oidcIssuer = .error err := by
  unfold logoutURL at h
  split at h
  · next e he => cases h; exact he
  · cases h

/-- The four ways the end of `authorize` goes in enforcing mode. -/
theorem authorizeClaims_cases (url : NetURL) (b : Controller) (locale : Locale)
    (idToken : String) (id : IDToken) :
    (∃ err, id.Claims = .error err ∧
      authorizeClaims url b locale idToken id =
        (false, {}, StatusUnauthorized, some (.join .errCouldNotLogin err))) ∨
    (∃ claims, id.Claims = .ok claims ∧ claims.EmailVerified = false ∧
      authorizeClaims url b locale idToken id =
        (false, {}, StatusUnauthorized,
          some (.join .errCouldNotLogin .errEmailNotVerified))) ∨
    (∃ claims err, id.Claims = .ok claims ∧ claims.EmailVerified = true ∧
      url.Parse b.oidcIssuer = .error err ∧
      authorizeClaims url b locale idToken id =
        (false, {}, StatusUnauthorized, some (.join .errCouldNotLogin err))) ∨
    (∃ claims u, id.Claims = .ok claims ∧ claims.EmailVerified = true ∧
      url.Parse b.oidcIssuer = .ok u ∧
      authorizeClaims url b locale idToken id =
        (false,
          { Email := claims.Email
            LogoutURL := url.String (url.JoinPath
              { u with RawQuery := url.Encode (((url.Query u).Set "id_token_hint"
                idToken).Set "post_logout_redirect_uri" b.oidcRedirectURL) }
              ["oidc", "logout"])
            Locale := some locale },
          StatusOK, none)) := by
  unfold authorizeClaims
  cases hc : id.Claims with
  | error err => exact Or.inl ⟨err, rfl, rfl⟩
  | ok claims =>
    cases hv : claims.EmailVerified with
    | false => exact Or.inr (Or.inl ⟨claims, rfl, hv, by simp [hv]⟩)
    | true =>
      cases hp : url.Parse b.oidcIssuer with
      | error err =>
        refine Or.inr (Or.inr (Or.inl ⟨claims, err, rfl, hv, rfl, ?_⟩))
        simp [logoutURL, hp, hv]
      | ok u =>
        refine Or.inr (Or.inr (Or.inr ⟨claims, u, rfl, hv, rfl, ?_⟩))
        simp [logoutURL, hp, hv]

/-- The seven ways `authorize` goes in enforcing mode. -/
theorem authorize_cases (url : NetURL) (b : Controller) (now : Time) (w : ResponseWriter)
    (r : Request) :
    (∃ err, b.localize r = .error err ∧
      authorize url b now (some w) r =
        ((false, {}, StatusInternalServerError, some (.join .errCouldNotLocalize err)),
          some w)) ∨
    (∃ locale, b.localize r = .ok locale ∧
      r.Cookie b.refreshTokenKey = .error Error.ErrNoCookie ∧
      TrimSpace (r.FormValue "consent") = "on" ∧
      authorize url b now (some w) r =
        ((true, {}, StatusTemporaryRedirect, none),
          some (w ++ [Effect.Redirect (b.config.AuthCodeURL (url.QueryEscape (returnURL r)))
            StatusFound]))) ∨
    (∃ locale, b.localize r = .ok locale ∧
      r.Cookie b.refreshTokenKey = .error Error.ErrNoCookie ∧
      TrimSpace (r.FormValue "consent") ≠ "on" ∧
      authorize url b now (some w) r =
        (match b.tpl.ExecuteTemplate "redirect.html" (consentData b locale) with
          | some err =>
            (false, {}, StatusInternalServerError,
              some (.join .errCouldNotRenderTemplate err))
          | none => (true, {}, StatusTemporaryRedirect, none),
          some (w ++ [Effect.ExecuteTemplate "redirect.html" (consentData b locale)]))) ∨
    (∃ locale rt, b.localize r = .ok locale ∧ r.Cookie b.refreshTokenKey = .ok rt ∧
      r.Cookie b.idTokenKey = .error Error.ErrNoCookie ∧
      authorize url b now (some w) r =
        ((true, {}, StatusTemporaryRedirect, none),
          some (w ++ [Effect.Redirect
            (b.config.AuthCodeURL (url.QueryEscape (url.String r.URL))) StatusFound]))) ∨
    (∃ locale rt it id, b.localize r = .ok locale ∧ r.Cookie b.refreshTokenKey = .ok rt ∧
      r.Cookie b.idTokenKey = .ok it ∧ b.verifier.Verify it.Value = .ok id ∧
      authorize url b now (some w) r = (authorizeClaims url b locale it.Value id, some w)) ∨
    (∃ locale rt it err, b.localize r = .ok locale ∧ r.Cookie b.refreshTokenKey = .ok rt ∧
      r.Cookie b.idTokenKey = .ok it ∧ b.verifier.Verify it.Value = .error err ∧
      ((∃ e, b.config.TokenSource rt.Value = .error e) ∨
        (∃ tok, b.config.TokenSource rt.Value = .ok tok ∧
          (tok.Extra "id_token").asString = none) ∨
        (∃ tok idToken e, b.config.TokenSource rt.Value = .ok tok ∧
          (tok.Extra "id_token").asString = some idToken ∧
          b.verifier.Verify idToken = .error e)) ∧
      authorize url b now (some w) r =
        ((true, {}, StatusOK, none),
          some (w ++ [Effect.Redirect (b.config.AuthCodeURL (url.QueryEscape (returnURL r)))
            StatusFound]))) ∨
    (∃ locale rt it err tok idToken id, b.localize r = .ok locale ∧
      r.Cookie b.refreshTokenKey = .ok rt ∧ r.Cookie b.idTokenKey = .ok it ∧
      b.verifier.Verify it.Value = .error err ∧ b.config.TokenSource rt.Value = .ok tok ∧
      (tok.Extra "id_token").asString = some idToken ∧ b.verifier.Verify idToken = .ok id ∧
      authorize url b now (some w) r =
        (authorizeClaims url b locale idToken id,
          some (w ++ ((if tok.RefreshToken = "" then []
              else [Effect.SetCookie (refreshTokenCookie b now tok.RefreshToken)]) ++
            [Effect.SetCookie (idTokenCookie b idToken tok.Expiry)])))) := by
  cases hloc : b.localize r with
  | error err => exact Or.inl ⟨err, rfl, authorize_localize_error url b now w r err hloc⟩
  | ok locale =>
    cases hrt : r.Cookie b.refreshTokenKey with
    | error e =>
      have he := Request.Cookie_error r _ e hrt
      subst he
      by_cases hc : TrimSpace (r.FormValue "consent") = "on"
      · exact Or.inr (Or.inl ⟨locale, rfl, rfl, hc,
          authorize_consent_given url b now w r locale _ hloc hrt hc⟩)
      · exact Or.inr (Or.inr (Or.inl ⟨locale, rfl, rfl, hc,
          authorize_consent_missing url b now w r locale _ hloc hrt hc⟩))
    | ok rt =>
      cases hit : r.Cookie b.idTokenKey with
      | error e =>
        have he := Request.Cookie_error r _ e hit
        subst he
        exact Or.inr (Or.inr (Or.inr (Or.inl ⟨locale, rt, rfl, rfl, rfl,
          authorize_identity_missing url b now w r locale rt _ hloc hrt hit⟩)))
      | ok it =>
        cases hver : b.verifier.Verify it.Value with
        | ok id =>
          exact Or.inr (Or.inr (Or.inr (Or.inr (Or.inl ⟨locale, rt, it, id, rfl, rfl, rfl,
            hver, authorize_verified url b now w r locale rt it id hloc hrt hit hver⟩))))
        | error err =>
          have soft := fun h => authorize_soft_failure url b now w r locale rt it err hloc
            hrt hit hver h
          cases htok : b.config.TokenSource rt.Value with
          | error e =>
            exact Or.inr (Or.inr (Or.inr (Or.inr (Or.inr (Or.inl ⟨locale, rt, it, err, rfl,
              rfl, rfl, hver, Or.inl ⟨e, htok⟩, soft (Or.inl ⟨e, htok⟩)⟩)))))
          | ok tok =>
            cases hid : (tok.Extra "id_token").asString with
            | none =>
              exact Or.inr (Or.inr (Or.inr (Or.inr (Or.inr (Or.inl ⟨locale, rt, it, err,
                rfl, rfl, rfl, hver, Or.inr (Or.inl ⟨tok, htok, hid⟩),
                soft (Or.inr (Or.inl ⟨tok, htok, hid⟩))⟩)))))
            | some idToken =>
              cases hnew : b.verifier.Verify idToken with
              | error e =>
                exact Or.inr (Or.inr (Or.inr (Or.inr (Or.inr (Or.inl ⟨locale, rt, it, err,
                  rfl, rfl, rfl, hver, Or.inr (Or.inr ⟨tok, idToken, e, htok, hid, hnew⟩),
                  soft (Or.inr (Or.inr ⟨tok, idToken, e, htok, hid, hnew⟩))⟩)))))
              | ok id =>
                exact Or.inr (Or.inr (Or.inr (Or.inr (Or.inr (Or.inr ⟨locale, rt, it, err,
                  tok, idToken, id, rfl, rfl, rfl, hver, htok, hid, hnew,
                  authorize_refreshed url b now w r locale rt it err tok idToken id hloc hrt
                    hit hver htok hid hnew⟩)))))

/-! ## Import transaction: C11 -/

/-- C11: for every exported debt and every exported activity whose `ContactID` is not
valid, `createDebt` and `createActivity` return `ErrContactDoesNotExist` and leave the
shared state as it was (no insert is issued), whatever the remapping table and the log
hold; the same holds of the sinks that `CreateUserData` returns once the transaction
is open. -/
theorem createDebt_createActivity_require_contact (db : ImportDB) (ns : String)
    (s : ImportState) (debt : ExportedDebt) (activity : ExportedActivity)
    (hd : debt.ContactID.Valid = false) (ha : activity.ContactID.Valid = false) :
    createDebt db ns debt s = (some Error.ErrContactDoesNotExist, s) ∧
    createActivity db ns activity s = (some Error.ErrContactDoesNotExist, s) ∧
    (db.Begin = none →
      (CreateUserData db ns).1.createDebt debt s = (some Error.ErrContactDoesNotExist, s) ∧
      (CreateUserData db ns).1.createActivity activity s =
        (some Error.ErrContactDoesNotExist, s)) := by
  have h1 : createDebt db ns debt s = (some Error.ErrContactDoesNotExist, s) := by
    simp [createDebt, hd]
  have h2 : createActivity db ns activity s = (some Error.ErrContactDoesNotExist, s) := by
    simp [createActivity, ha]
  refine ⟨h1, h2, fun hb => ?_⟩
  simp only [CreateUserData, hb]
  exact ⟨h1, h2⟩

/-- C11 at a debt and an activity without contact reference, in an import whose
remapping table holds an entry for their `Int32` value 7. -/
theorem createDebt_createActivity_require_contact_witness :
    createDebt freshDB "alice2@example.com" { debt3 with ContactID := ⟨7, false⟩ }
        journalImported.2 =
      (some Error.ErrContactDoesNotExist, journalImported.2) ∧
    createActivity freshDB "alice2@example.com" { activity4 with ContactID := ⟨7, false⟩ }
        journalImported.2 =
      (some Error.ErrContactDoesNotExist, journalImported.2) ∧
    (freshDB.Begin = none →
      (CreateUserData freshDB "alice2@example.com").1.createDebt
          { debt3 with ContactID := ⟨7, false⟩ } journalImported.2 =
        (some Error.ErrContactDoesNotExist, journalImported.2) ∧
      (CreateUserData freshDB "alice2@example.com").1.createActivity
          { activity4 with ContactID := ⟨7, false⟩ } journalImported.2 =
        (some Error.ErrContactDoesNotExist, journalImported.2)) :=
  createDebt_createActivity_require_contact freshDB "alice2@example.com" journalImported.2
    { debt3 with ContactID := ⟨7, false⟩ } { activity4 with ContactID := ⟨7, false⟩ } rfl rfl

/-! ## Session authorizer: C12, C13, C16 -/

/-- C12: whenever `authorize` succeeds with an identity, in probe mode (the cookie's
credential verifies) as in enforcing mode (the cookie's credential verifies, or it fails
and the credential obtained by the silent refresh verifies), the returned `Email` is the
email claim and the returned `LogoutURL` is the issuer URL with the query parameters
`id_token_hint`, set to the identity credential that passed verification, and
`post_logout_redirect_uri`, set to the configured redirect URL, and with the path
segments `oidc`, `logout` appended; the status is 200 and the locale is set. -/
theorem authorize_identity (url : NetURL) (b : Controller) (now : Time)
    (w : Option ResponseWriter) (r : Request) (locale : Locale) (rt it : Cookie)
    (idToken : String) (id : IDToken) (claims : Claims) (u : URL)
    (hloc : b.localize r = .ok locale)
    (hrt : r.Cookie b.refreshTokenKey = .ok rt)
    (hit : r.Cookie b.idTokenKey = .ok it)
    (hver : (b.verifier.Verify it.Value = .ok id ∧ idToken = it.Value) ∨
      (w.isSome = true ∧ (∃ err, b.verifier.Verify it.Value = .error err) ∧
        ∃ tok, b.config.TokenSource rt.Value = .ok tok ∧
          (tok.Extra "id_token").asString = some idToken ∧
          b.verifier.Verify idToken = .ok id))
    (hclaims : id.Claims = .ok claims)
    (hverified : claims.EmailVerified = true)
    (hparse : url.Parse b.oidcIssuer = .ok u) :
    (authorize url b now w r).1 =
      (false,
        { Email := claims.Email
          LogoutURL := url.String (url.JoinPath
            { u with RawQuery := url.Encode (((url.Query u).Set "id_token_hint"
              idToken).Set "post_logout_redirect_uri" b.oidcRedirectURL) }
            ["oidc", "logout"])
          Locale := some locale },
        StatusOK, none) := by
  have hclaimsEnd : authorizeClaims url b locale idToken id =
      (false,
        { Email := claims.Email
          LogoutURL := url.String (url.JoinPath
            { u with RawQuery := url.Encode (((url.Query u).Set "id_token_hint"
              idToken).Set "post_logout_redirect_uri" b.oidcRedirectURL) }
            ["oidc", "logout"])
          Locale := some locale },
        StatusOK, none) := by
    simp [authorizeClaims, hclaims, hverified, logoutURL_ok url b idToken u hparse]
  cases w with
  | none =>
    rcases hver with ⟨hver, rfl⟩ | ⟨hw, _⟩
    · simp [authorize, authorizeProbe, hloc, hrt, hit, hver, hclaims, hverified,
        logoutURL_ok url b it.Value u hparse]
    · simp at hw
  | some w =>
    rcases hver with ⟨hver, rfl⟩ | ⟨_, ⟨err, hver⟩, tok, htok, hid, hnew⟩
    · rw [authorize_verified url b now w r locale rt it id hloc hrt hit hver, hclaimsEnd]
    · rw [authorize_refreshed url b now w r locale rt it err tok idToken id hloc hrt hit hver
        htok hid hnew, hclaimsEnd]

/-- C12 at a probe whose identity credential `id-ok` verifies, and at an enforcing call
whose identity credential has expired and is refreshed to `id-new`. -/
theorem authorize_identity_witness :
    (authorize exURL exController ⟨0⟩ none
        (exRequest "en" [refreshCookie "rt-good", idCookie "id-ok"] [])).1 =
      (false,
        { Email := "alice@example.com"
          LogoutURL := "https://idp.example.com/oidc/logout?id_token_hint=id-ok&post_logout_redirect_uri=https://app.example.com/authorize"
          Locale := some exLocale },
        200, none) ∧
    (authorize exURL exController ⟨0⟩ (some [])
        (exRequest "en" [refreshCookie "rt-good", idCookie "id-old"] [])).1 =
      (false,
        { Email := "alice@example.com"
          LogoutURL := "https://idp.example.com/oidc/logout?id_token_hint=id-new&post_logout_redirect_uri=https://app.example.com/authorize"
          Locale := some exLocale },
        200, none) :=
  ⟨authorize_identity exURL exController ⟨0⟩ none
      (exRequest "en" [refreshCookie "rt-good", idCookie "id-ok"] []) exLocale
      (refreshCookie "rt-good") (idCookie "id-ok") "id-ok"
      ⟨.ok ⟨"alice@example.com", true⟩⟩ ⟨"alice@example.com", true⟩
      ⟨"https", "idp.example.com", "", ""⟩ rfl rfl rfl (Or.inl ⟨rfl, rfl⟩) rfl rfl rfl,
    authorize_identity exURL exController ⟨0⟩ (some [])
      (exRequest "en" [refreshCookie "rt-good", idCookie "id-old"] []) exLocale
      (refreshCookie "rt-good") (idCookie "id-old") "id-new"
      ⟨.ok ⟨"alice@example.com", true⟩⟩ ⟨"alice@example.com", true⟩
      ⟨"https", "idp.example.com", "", ""⟩ rfl rfl rfl
      (Or.inr ⟨rfl, ⟨_, rfl⟩, _, rfl, rfl, rfl⟩) rfl rfl rfl⟩

/-- C13: in probe mode `authorize` returns `mustRedirect=false` and writes nothing, for
every request. When the locale resolves and the caller is merely not logged in (the
refresh cookie is missing, the identity cookie is missing, the identity credential fails
verification, or the claims report `email_verified=false`), it returns a nil error,
status 200 and a session with the locale set and `Email` and `LogoutURL` empty. It
returns a non-nil error only when locale resolution, claims decoding or issuer-URL
parsing fails. -/
theorem authorize_probe (url : NetURL) (b : Controller) (now : Time) (r : Request) :
    (authorize url b now none r).1.1 = false ∧
    (authorize url b now none r).2 = none ∧
    (∀ locale, b.localize r = .ok locale →
      ((∃ err, r.Cookie b.refreshTokenKey = .error err) ∨
        (∃ err, r.Cookie b.idTokenKey = .error err) ∨
        (∃ it err, r.Cookie b.idTokenKey = .ok it ∧
          b.verifier.Verify it.Value = .error err) ∨
        (∃ it id claims, r.Cookie b.idTokenKey = .ok it ∧
          b.verifier.Verify it.Value = .ok id ∧ id.Claims = .ok claims ∧
          claims.EmailVerified = false)) →
      (authorize url b now none r).1 =
        (false, { Email := "", LogoutURL := "", Locale := some locale }, StatusOK, none)) ∧
    (∀ err, (authorize url b now none r).1.2.2.2 = some err →
      (∃ e, b.localize r = .error e) ∨
      (∃ it id e, r.Cookie b.idTokenKey = .ok it ∧ b.verifier.Verify it.Value = .ok id ∧
        id.Claims = .error e) ∨
      (∃ e, url.Parse b.oidcIssuer = .error e)) := by
  have hauth : authorize url b now none r = (authorizeProbe url b r, none) := rfl
  rw [hauth]
  simp only []
  unfold authorizeProbe
  cases hloc : b.localize r with
  | error e => simp
  | ok locale =>
    cases hrt : r.Cookie b.refreshTokenKey with
    | error e => simp
    | ok rt =>
      cases hit : r.Cookie b.idTokenKey with
      | error e => simp
      | ok it =>
        cases hver : b.verifier.Verify it.Value with
        | error e => simp [hver]
        | ok id =>
          cases hc : id.Claims with
          | error e => simp [hver, hc]
          | ok claims =>
            cases hv : claims.EmailVerified with
            | false => simp [hver, hc, hv]
            | true =>
              cases hp : url.Parse b.oidcIssuer with
              | error e => simp [logoutURL, hp, hv, hver, hc]
              | ok u => simp [logoutURL, hp, hv, hver, hc]

/-- A probe without cookies and a probe whose email is not verified: both return the
session of a caller who is not logged in. -/
theorem authorize_probe_not_logged_in :
    authorize exURL exController ⟨0⟩ none (exRequest "en" [] []) =
      ((false, { Locale := some exLocale }, 200, none), none) ∧
    authorize exURL exController ⟨0⟩ none
        (exRequest "en" [refreshCookie "rt-good", idCookie "id-unverified"] []) =
      ((false, { Locale := some exLocale }, 200, none), none) := by
  refine ⟨rfl, rfl⟩

/-- C16: in enforcing mode, whenever `authorize` returns `mustRedirect=false` with a nil
error, the request carried a refresh-credential cookie and an identity-credential cookie,
and the returned `Email` is the email claim of an identity credential that the verifier
accepted (the credential of the cookie, or the one obtained by the refresh exchange) and
whose claims have `email_verified=true`; whenever it returns `mustRedirect=true` or a
non-nil error, the returned session is empty. -/
theorem authorize_sound (url : NetURL) (b : Controller) (now : Time) (w : ResponseWriter)
    (r : Request) :
    ((authorize url b now (some w) r).1.1 = false →
      (authorize url b now (some w) r).1.2.2.2 = none →
      ∃ rt it idToken id claims,
        r.Cookie b.refreshTokenKey = .ok rt ∧ r.Cookie b.idTokenKey = .ok it ∧
        (idToken = it.Value ∨
          ∃ tok, b.config.TokenSource rt.Value = .ok tok ∧
            (tok.Extra "id_token").asString = some idToken) ∧
        b.verifier.Verify idToken = .ok id ∧ id.Claims = .ok claims ∧
        claims.EmailVerified = true ∧
        (authorize url b now (some w) r).1.2.1.Email = claims.Email) ∧
    ((authorize url b now (some w) r).1.1 = true ∨
        (authorize url b now (some w) r).1.2.2.2 ≠ none →
      (authorize url b now (some w) r).1.2.1 = {}) := by
  have hend : ∀ (locale : Locale) (rt it : Cookie) (idToken : String) (id : IDToken),
      r.Cookie b.refreshTokenKey = .ok rt → r.Cookie b.idTokenKey = .ok it →
      (idToken = it.Value ∨
        ∃ tok, b.config.TokenSource rt.Value = .ok tok ∧
          (tok.Extra "id_token").asString = some idToken) →
      b.verifier.Verify idToken = .ok id →
      ∀ res, authorizeClaims url b locale idToken id = res →
      (res.1 = false → res.2.2.2 = none →
        ∃ rt it idToken id claims,
          r.Cookie b.refreshTokenKey = .ok rt ∧ r.Cookie b.idTokenKey = .ok it ∧
          (idToken = it.Value ∨
            ∃ tok, b.config.TokenSource rt.Value = .ok tok ∧
              (tok.Extra "id_token").asString = some idToken) ∧
          b.verifier.Verify idToken = .ok id ∧ id.Claims = .ok claims ∧
          claims.EmailVerified = true ∧ res.2.1.Email = claims.Email) ∧
      (res.1 = true ∨ res.2.2.2 ≠ none → res.2.1 = {}) := by
    intro locale rt it idToken id hrt hit hsrc hver res hres
    subst hres
    rcases authorizeClaims_cases url b locale idToken id with ⟨err, _, h⟩ | ⟨claims, _, _, h⟩ |
      ⟨claims, err, _, _, _, h⟩ | ⟨claims, u, hc, hv, _, h⟩
    · rw [h]; simp
    · rw [h]; simp
    · rw [h]; simp
    · rw [h]
      refine ⟨fun _ _ => ⟨rt, it, idToken, id, claims, hrt, hit, hsrc, hver, hc, hv, rfl⟩, ?_⟩
      simp
  rcases authorize_cases url b now w r with ⟨err, _, h⟩ | ⟨locale, _, _, _, h⟩ |
    ⟨locale, _, _, _, h⟩ | ⟨locale, rt, _, _, _, h⟩ | ⟨locale, rt, it, id, _, hrt, hit, hver, h⟩ |
    ⟨locale, rt, it, err, _, _, _, _, _, h⟩ |
    ⟨locale, rt, it, err, tok, idToken, id, _, hrt, hit, _, htok, hid, hnew, h⟩
  · rw [h]; simp
  · rw [h]; simp
  · rw [h]
    cases b.tpl.ExecuteTemplate "redirect.html" (consentData b locale) <;> simp
  · rw [h]; simp
  · rw [h]
    exact hend locale rt it it.Value id hrt hit (Or.inl rfl) hver _ rfl
  · rw [h]; simp
  · rw [h]
    exact hend locale rt it idToken id hrt hit (Or.inr ⟨tok, htok, hid⟩) hnew _ rfl

/-! ## Sign-in and sign-out, case by case -/

/-- Executing `redirect.html` writes no cookie. -/
theorem renderRedirect_no_cookie (b : Controller) (data : redirectData) (c : Cookie) :
    Effect.SetCookie c ∉ renderRedirect b data := by
  unfold renderRedirect
  split <;> simp

/-- The five ways `HandleAuthorize` goes: the locale does not resolve; sign-out; the
code exchange fails; the exchanged token carries no string `id_token`; sign-in. -/
theorem HandleAuthorize_cases (url : NetURL) (b : Controller) (now : Time)
    (w : ResponseWriter) (r : Request) :
    (∃ err, b.localize r = .error err ∧
      HandleAuthorize url b now w r =
        w ++ [Effect.Error .errCouldNotLocalize StatusInternalServerError]) ∨
    (∃ locale, b.localize r = .ok locale ∧ TrimSpace ((url.Query r.URL).Get "code") = "" ∧
      HandleAuthorize url b now w r =
        w ++ ([Effect.SetCookie { Name := b.refreshTokenKey, Value := "", MaxAge := -1 },
          Effect.SetCookie { Name := b.idTokenKey, Value := "", MaxAge := -1 }] ++
          renderRedirect b
            (signingData b locale "Signing you out ..." (callbackReturnURL url r)))) ∨
    (∃ locale err, b.localize r = .ok locale ∧
      TrimSpace ((url.Query r.URL).Get "code") ≠ "" ∧
      b.config.Exchange ((url.Query r.URL).Get "code") = .error err ∧
      HandleAuthorize url b now w r =
        w ++ [Effect.Error .errCouldNotLogin StatusUnauthorized]) ∨
    (∃ locale tok, b.localize r = .ok locale ∧
      TrimSpace ((url.Query r.URL).Get "code") ≠ "" ∧
      b.config.Exchange ((url.Query r.URL).Get "code") = .ok tok ∧
      (tok.Extra "id_token").asString = none ∧
      HandleAuthorize url b now w r =
        w ++ [Effect.SetCookie (refreshTokenCookie b now tok.RefreshToken),
          Effect.Error .errCouldNotLogin StatusUnauthorized]) ∨
    (∃ locale tok idToken, b.localize r = .ok locale ∧
      TrimSpace ((url.Query r.URL).Get "code") ≠ "" ∧
      b.config.Exchange ((url.Query r.URL).Get "code") = .ok tok ∧
      (tok.Extra "id_token").asString = some idToken ∧
      HandleAuthorize url b now w r =
        w ++ ([Effect.SetCookie (refreshTokenCookie b now tok.RefreshToken),
          Effect.SetCookie (idTokenCookie b idToken tok.Expiry)] ++
          renderRedirect b
            (signingData b locale "Signing you in ..." (callbackReturnURL url r)))) := by
  unfold HandleAuthorize
  cases hloc : b.localize r with
  | error err => exact Or.inl ⟨err, rfl, rfl⟩
  | ok locale =>
    by_cases hcode : TrimSpace ((url.Query r.URL).Get "code") = ""
    · exact Or.inr (Or.inl ⟨locale, rfl, hcode, by simp [hcode]⟩)
    · have hne : (TrimSpace ((url.Query r.URL).Get "code") == "") = false := by
        simpa using hcode
      simp only [hne]
      cases hex : b.config.Exchange ((url.Query r.URL).Get "code") with
      | error err => exact Or.inr (Or.inr (Or.inl ⟨locale, err, rfl, hcode, rfl, by simp⟩))
      | ok tok =>
        cases hid : (tok.Extra "id_token").asString with
        | none =>
          exact Or.inr (Or.inr (Or.inr (Or.inl ⟨locale, tok, rfl, hcode, rfl, hid,
            by simp [hid]⟩)))
        | some idToken =>
          exact Or.inr (Or.inr (Or.inr (Or.inr ⟨locale, tok, idToken, rfl, hcode, rfl, hid,
            by simp [hid]⟩)))

/-! ## Cookies: C14, C17 -/

/-- C14, as stated, fails on sign-out: for a callback without a code `HandleAuthorize`
writes the two cookies with an empty value and `MaxAge=-1` and nothing else set, so the
first of them has `HttpOnly=false`, `Secure=false`, no `SameSite` mode and an empty
`Path`. -/
theorem HandleAuthorize_sign_out_counterexample :
    HandleAuthorize exURL exController ⟨0⟩ [] (callbackRequest "en" "") =
      [Effect.SetCookie
          { Name := "refresh_token", Value := "", Path := "", Expires := ⟨0⟩, MaxAge := -1,
            Secure := false, HttpOnly := false, SameSite := SameSite.unset },
        Effect.SetCookie
          { Name := "id_token", Value := "", Path := "", Expires := ⟨0⟩, MaxAge := -1,
            Secure := false, HttpOnly := false, SameSite := SameSite.unset },
        Effect.ExecuteTemplate "redirect.html"
          { toPageData :=
              { toUserData := { Locale := some exLocale }
                Page := "Signing you out ..."
                PrivacyURL := "/privacy"
                ImprintURL := "/imprint" }
            Href := "/" }] := by
  rfl

/-- C14, amended: every cookie written by `authorize` and by the sign-in path of
`HandleAuthorize` has `HttpOnly=true`, `Secure=true`, `SameSite=Strict` and `Path="/"`,
and is either the refresh-credential cookie, holding the refresh credential of the
exchange and expiring 365 days after the time of writing, or the identity-credential
cookie, holding the identity credential of the exchange and expiring at the expiry the
provider issued; probe mode writes nothing; the cookies written on sign-out are exactly
the two cookies with an empty value and `MaxAge=-1` and no other field set. -/
theorem cookies_written (url : NetURL) (b : Controller) (now : Time) (w : ResponseWriter)
    (r : Request) :
    (∃ ws, (authorize url b now (some w) r).2 = some (w ++ ws) ∧
      ∀ c, Effect.SetCookie c ∈ ws →
        c.HttpOnly = true ∧ c.Secure = true ∧ c.SameSite = SameSite.SameSiteStrictMode ∧
        c.Path = "/" ∧
        ∃ rt tok, r.Cookie b.refreshTokenKey = .ok rt ∧
          b.config.TokenSource rt.Value = .ok tok ∧
          ((c.Name = b.refreshTokenKey ∧ c.Value = tok.RefreshToken ∧
              c.Expires = ⟨now.nsec + 365 * 24 * 3600 * 1000000000⟩) ∨
            (c.Name = b.idTokenKey ∧ (tok.Extra "id_token").asString = some c.Value ∧
              c.Expires = tok.Expiry))) ∧
    (authorize url b now none r).2 = none ∧
    (∃ ws, HandleAuthorize url b now w r = w ++ ws ∧
      ∀ c, Effect.SetCookie c ∈ ws →
        (TrimSpace ((url.Query r.URL).Get "code") = "" ∧
          (c = { Name := b.refreshTokenKey, Value := "", MaxAge := -1 } ∨
            c = { Name := b.idTokenKey, Value := "", MaxAge := -1 })) ∨
        (TrimSpace ((url.Query r.URL).Get "code") ≠ "" ∧
          c.HttpOnly = true ∧ c.Secure = true ∧
          c.SameSite = SameSite.SameSiteStrictMode ∧ c.Path = "/" ∧
          ∃ tok, b.config.Exchange ((url.Query r.URL).Get "code") = .ok tok ∧
            ((c.Name = b.refreshTokenKey ∧ c.Value = tok.RefreshToken ∧
                c.Expires = ⟨now.nsec + 365 * 24 * 3600 * 1000000000⟩) ∨
              (c.Name = b.idTokenKey ∧ (tok.Extra "id_token").asString = some c.Value ∧
                c.Expires = tok.Expiry)))) := by
  refine ⟨?_, rfl, ?_⟩
  · rcases authorize_cases url b now w r with ⟨err, _, h⟩ | ⟨locale, _, _, _, h⟩ |
      ⟨locale, _, _, _, h⟩ | ⟨locale, rt, _, _, _, h⟩ | ⟨locale, rt, it, id, _, _, _, _, h⟩ |
      ⟨locale, rt, it, err, _, _, _, _, _, h⟩ |
      ⟨locale, rt, it, err, tok, idToken, id, _, hrt, _, _, htok, hid, _, h⟩
    · exact ⟨[], by rw [h]; simp, by simp⟩
    · exact ⟨_, by rw [h], by simp⟩
    · exact ⟨_, by rw [h], by simp⟩
    · exact ⟨_, by rw [h], by simp⟩
    · exact ⟨[], by rw [h]; simp, by simp⟩
    · exact ⟨_, by rw [h], by simp⟩
    · refine ⟨_, by rw [h], ?_⟩
      intro c hc
      have hc' : c = refreshTokenCookie b now tok.RefreshToken ∨
          c = idTokenCookie b idToken tok.Expiry := by
        by_cases hr : tok.RefreshToken = ""
        · simp [hr] at hc; exact Or.inr hc
        · simpa [hr] using hc
      rcases hc' with rfl | rfl
      · exact ⟨rfl, rfl, rfl, rfl, rt, tok, hrt, htok,
          Or.inl ⟨rfl, rfl, by simp [refreshTokenCookie, Time.Add, Hour]⟩⟩
      · exact ⟨rfl, rfl, rfl, rfl, rt, tok, hrt, htok, Or.inr ⟨rfl, hid, rfl⟩⟩
  · rcases HandleAuthorize_cases url b now w r with ⟨err, _, h⟩ | ⟨locale, _, hcode, h⟩ |
      ⟨locale, err, _, hcode, _, h⟩ | ⟨locale, tok, _, hcode, hex, hid, h⟩ |
      ⟨locale, tok, idToken, _, hcode, hex, hid, h⟩
    · exact ⟨_, h, by simp⟩
    · refine ⟨_, h, ?_⟩
      intro c hc
      have hn := renderRedirect_no_cookie b
        (signingData b locale "Signing you out ..." (callbackReturnURL url r)) c
      simp only [List.mem_append, List.mem_cons, Effect.SetCookie.injEq, List.mem_singleton,
        List.not_mem_nil, or_false, hn] at hc
      exact Or.inl ⟨hcode, hc⟩
    · exact ⟨_, h, by simp⟩
    · refine ⟨_, h, ?_⟩
      intro c hc
      simp only [List.mem_cons, Effect.SetCookie.injEq, List.mem_singleton,
        List.not_mem_nil, or_false, reduceCtorEq] at hc
      subst hc
      exact Or.inr ⟨hcode, rfl, rfl, rfl, rfl, tok, hex,
        Or.inl ⟨rfl, rfl, by simp [refreshTokenCookie, Time.Add, Hour]⟩⟩
    · refine ⟨_, h, ?_⟩
      intro c hc
      have hn := renderRedirect_no_cookie b
        (signingData b locale "Signing you in ..." (callbackReturnURL url r)) c
      simp only [List.mem_append, List.mem_cons, Effect.SetCookie.injEq, List.mem_singleton,
        List.not_mem_nil, or_false, hn] at hc
      rcases hc with rfl | rfl
      · exact Or.inr ⟨hcode, rfl, rfl, rfl, rfl, tok, hex,
          Or.inl ⟨rfl, rfl, by simp [refreshTokenCookie, Time.Add, Hour]⟩⟩
      · exact Or.inr ⟨hcode, rfl, rfl, rfl, rfl, tok, hex, Or.inr ⟨rfl, hid, rfl⟩⟩

/-- C17: for every callback whose locale resolved and whose code is not blank: if the
code exchange succeeds and the token carries no string `id_token`, `HandleAuthorize`
writes the refresh-credential cookie with the exchanged refresh credential, whatever it
is (the empty one included), and then answers 401; it writes no other cookie, so no
identity-credential cookie. If the exchange fails it answers 401 and writes nothing
else. In this branch no cookie is written if and only if the exchange fails. -/
theorem HandleAuthorize_sign_in_not_atomic (url : NetURL) (b : Controller) (now : Time)
    (w : ResponseWriter) (r : Request) (locale : Locale)
    (hloc : b.localize r = .ok locale)
    (hcode : TrimSpace ((url.Query r.URL).Get "code") ≠ "") :
    (∀ tok, b.config.Exchange ((url.Query r.URL).Get "code") = .ok tok →
      (tok.Extra "id_token").asString = none →
      HandleAuthorize url b now w r =
        w ++ [Effect.SetCookie (refreshTokenCookie b now tok.RefreshToken),
          Effect.Error .errCouldNotLogin StatusUnauthorized] ∧
      (refreshTokenCookie b now tok.RefreshToken).Name = b.refreshTokenKey ∧
      (refreshTokenCookie b now tok.RefreshToken).Value = tok.RefreshToken ∧
      (b.refreshTokenKey ≠ b.idTokenKey →
        ∀ c, Effect.SetCookie c ∈
            [Effect.SetCookie (refreshTokenCookie b now tok.RefreshToken),
              Effect.Error .errCouldNotLogin StatusUnauthorized] →
          c.Name ≠ b.idTokenKey)) ∧
    (∀ err, b.config.Exchange ((url.Query r.URL).Get "code") = .error err →
      HandleAuthorize url b now w r =
        w ++ [Effect.Error .errCouldNotLogin StatusUnauthorized]) ∧
    (∃ ws, HandleAuthorize url b now w r = w ++ ws ∧
      ((∀ c, Effect.SetCookie c ∉ ws) ↔
        ∃ err, b.config.Exchange ((url.Query r.URL).Get "code") = .error err)) := by
  rcases HandleAuthorize_cases url b now w r with ⟨err, hl, _⟩ | ⟨_, _, hc, _⟩ |
    ⟨_, err, _, _, hex, h⟩ | ⟨_, tok, _, _, hex, hid, h⟩ | ⟨_, tok, idToken, _, _, hex, hid, h⟩
  · rw [hloc] at hl; cases hl
  · exact absurd hc hcode
  · refine ⟨fun tok htok => ?_, fun _ _ => h, _, h, ?_⟩
    · rw [hex] at htok; cases htok
    · simp [hex]
  · refine ⟨fun tok' htok hid' => ?_, fun e he => ?_, _, h, ?_⟩
    · rw [hex] at htok
      cases htok
      refine ⟨h, rfl, rfl, fun hne c hc => ?_⟩
      simp only [List.mem_cons, Effect.SetCookie.injEq, List.mem_singleton,
        List.not_mem_nil, or_false, reduceCtorEq] at hc
      subst hc
      exact hne
    · rw [hex] at he; cases he
    · simp [hex]
  · refine ⟨fun tok' htok hid' => ?_, fun e he => ?_, _, h, ?_⟩
    · rw [hex] at htok
      cases htok
      rw [hid] at hid'
      cases hid'
    · rw [hex] at he; cases he
    · constructor
      · intro hall
        exact absurd (List.mem_append_left _ (List.mem_cons_self _ _)) (hall _)
      · rintro ⟨e, he⟩
        rw [hex] at he
        cases he

/-- C17 at three callbacks: the code `code-noid` is exchanged for the refresh credential
`rt-new` and no identity credential, `code-empty` for an empty refresh credential and no
identity credential, and `code-bad` is rejected. -/
theorem HandleAuthorize_sign_in_not_atomic_witness :
    HandleAuthorize exURL exController ⟨0⟩ [] (callbackRequest "en" "code=code-noid") =
      [Effect.SetCookie
          { Name := "refresh_token", Value := "rt-new", Path := "/",
            Expires := ⟨31536000000000000⟩, Secure := true, HttpOnly := true,
            SameSite := SameSite.SameSiteStrictMode },
        Effect.Error .errCouldNotLogin 401] ∧
    HandleAuthorize exURL exController ⟨0⟩ [] (callbackRequest "en" "code=code-empty") =
      [Effect.SetCookie
          { Name := "refresh_token", Value := "", Path := "/",
            Expires := ⟨31536000000000000⟩, Secure := true, HttpOnly := true,
            SameSite := SameSite.SameSiteStrictMode },
        Effect.Error .errCouldNotLogin 401] ∧
    HandleAuthorize exURL exController ⟨0⟩ [] (callbackRequest "en" "code=code-bad") =
      [Effect.Error .errCouldNotLogin 401] :=
  ⟨((HandleAuthorize_sign_in_not_atomic exURL exController ⟨0⟩ []
      (callbackRequest "en" "code=code-noid") exLocale rfl (by decide)).1
      ⟨"rt-new", ⟨1000⟩, []⟩ rfl rfl).1,
    ((HandleAuthorize_sign_in_not_atomic exURL exController ⟨0⟩ []
      (callbackRequest "en" "code=code-empty") exLocale rfl (by decide)).1
      ⟨"", ⟨1000⟩, []⟩ rfl rfl).1,
    (HandleAuthorize_sign_in_not_atomic exURL exController ⟨0⟩ []
      (callbackRequest "en" "code=code-bad") exLocale rfl (by decide)).2.1
      (.other "invalid_grant") rfl⟩

/-! ## Page handlers: C15 -/

/-- Rendering a page invokes no persister operation. -/
theorem render_calls (b : PageController) (w : ResponseWriter) (calls : List PersisterCall)
    (name : String) (data : PageContent) : (render b w calls name data).2 = calls := by
  unfold render
  split <;> rfl

/-- A persister operation invoked by a handler is invoked by what follows a successful
`authorize`, on the session that `authorize` returned. -/
theorem authorized_calls (url : NetURL) (b : PageController) (now : Time)
    (w : ResponseWriter) (r : Request) (next : userData → ResponseWriter → Handled)
    (c : PersisterCall) (hc : c ∈ (authorized url b now w r next).2) :
    (authorize url b.toController now (some w) r).1.1 = false ∧
    (authorize url b.toController now (some w) r).1.2.2.2 = none ∧
    ∃ w', c ∈ (next (authorize url b.toController now (some w) r).1.2.1 w').2 := by
  unfold authorized at hc
  rcases hauth : authorize url b.toController now (some w) r with
    ⟨⟨redirected, userData, status, err⟩, w'⟩
  rw [hauth] at hc
  cases err with
  | some err => simp at hc
  | none =>
    cases redirected with
    | true => simp at hc
    | false => exact ⟨rfl, rfl, w'.getD w, by simpa using hc⟩

/-- C15: for every handler of `journal.go` and `activities.go` and every request, each
persister operation the handler invokes is invoked after `authorize` returned
`mustRedirect=false` and a nil error, and its namespace argument is the `Email` that this
call of `authorize` returned. -/
theorem pageHandlers_scoped
    (h : String × (NetURL → Std → PageController → Time → ResponseWriter → Request → Handled))
    (hh : h ∈ pageHandlers) (url : NetURL) (std : Std) (b : PageController) (now : Time)
    (w : ResponseWriter) (r : Request) (c : PersisterCall)
    (hc : c ∈ (h.2 url std b now w r).2) :
    (authorize url b.toController now (some w) r).1.1 = false ∧
    (authorize url b.toController now (some w) r).1.2.2.2 = none ∧
    c.Namespace = (authorize url b.toController now (some w) r).1.2.1.Email := by
  simp only [pageHandlers, List.mem_cons, List.mem_singleton, List.not_mem_nil, or_false] at hh
  rcases hh with rfl | rfl | rfl | rfl | rfl | rfl | rfl | rfl | rfl | rfl | rfl | rfl | rfl
  all_goals
    obtain ⟨h1, h2, w', hc⟩ := authorized_calls _ _ _ _ _ _ c hc
    refine ⟨h1, h2, ?_⟩
    revert hc
    try dsimp only
    repeat' split
    all_goals simp only [render_calls, List.mem_singleton, List.not_mem_nil, false_imp_iff]
    all_goals first
      | trivial
      | (intro hc; subst hc; rfl)

/-- C15 at `HandleCreateJournal`, for a signed-in request of `alice@example.com` that
posts a journal entry: the one persister operation invoked is `CreateJournalEntry` with
the namespace `alice@example.com`. -/
theorem pageHandlers_scoped_witness :
    (HandleCreateJournal exURL exStd exPages ⟨0⟩ []
        (exRequest "en" [refreshCookie "rt-good", idCookie "id-ok"]
          [("title", "Monday"), ("body", "Fine"), ("rating", "4")])).2 =
      [PersisterCall.CreateJournalEntry "Monday" "Fine" 4 "alice@example.com"] ∧
    ((authorize exURL exPages.toController ⟨0⟩ (some [])
        (exRequest "en" [refreshCookie "rt-good", idCookie "id-ok"]
          [("title", "Monday"), ("body", "Fine"), ("rating", "4")])).1.1 = false ∧
      (authorize exURL exPages.toController ⟨0⟩ (some [])
        (exRequest "en" [refreshCookie "rt-good", idCookie "id-ok"]
          [("title", "Monday"), ("body", "Fine"), ("rating", "4")])).1.2.2.2 = none ∧
      (PersisterCall.CreateJournalEntry "Monday" "Fine" 4 "alice@example.com").Namespace =
        (authorize exURL exPages.toController ⟨0⟩ (some [])
          (exRequest "en" [refreshCookie "rt-good", idCookie "id-ok"]
            [("title", "Monday"), ("body", "Fine"), ("rating", "4")])).1.2.1.Email) :=
  ⟨rfl,
    pageHandlers_scoped ("HandleCreateJournal", HandleCreateJournal)
      (by simp [pageHandlers]) exURL exStd exPages ⟨0⟩ []
      (exRequest "en" [refreshCookie "rt-good", idCookie "id-ok"]
        [("title", "Monday"), ("body", "Fine"), ("rating", "4")])
      (PersisterCall.CreateJournalEntry "Monday" "Fine" 4 "alice@example.com")
      (by
        have h : (HandleCreateJournal exURL exStd exPages ⟨0⟩ []
            (exRequest "en" [refreshCookie "rt-good", idCookie "id-ok"]
              [("title", "Monday"), ("body", "Fine"), ("rating", "4")])).2 =
            [PersisterCall.CreateJournalEntry "Monday" "Fine" 4 "alice@example.com"] := rfl
        rw [h]
        exact List.mem_singleton.mpr rfl)⟩

/-! ## Import transaction: C18 -/

/-- C18: `createJournalEntry` issues exactly one insert, of `Title`, `Body`, `Rating` and
the namespace of `CreateUserData`, and `createContact` exactly one insert, of `FirstName`,
`LastName`, `Nickname`, `Email`, `Pronouns` and that namespace. Two journal entries that
agree on `Title`, `Body` and `Rating` therefore produce the same calls and the same
result, whatever their `ID`, `Namespace` and `Date`, and two contacts that agree on the
five inserted fields produce the same calls, result and state, whatever their `ID`,
`Namespace`, `Birthday`, `Address` and `Notes`. -/
theorem sinks_insert_fixed_fields (db : ImportDB) (ns : String) (s : ImportState)
    (j1 j2 : ExportedJournalEntry) (c1 c2 : ExportedContact)
    (hj : j1.Title = j2.Title ∧ j1.Body = j2.Body ∧ j1.Rating = j2.Rating)
    (hc : c1.FirstName = c2.FirstName ∧ c1.LastName = c2.LastName ∧
      c1.Nickname = c2.Nickname ∧ c1.Email = c2.Email ∧ c1.Pronouns = c2.Pronouns) :
    (createJournalEntry db ns j1 s).2.log =
      s.log ++ [Event.CreateJournalEntry ⟨j1.Title, j1.Body, j1.Rating, ns⟩
        (errOf (db.CreateJournalEntry s.log ⟨j1.Title, j1.Body, j1.Rating, ns⟩))] ∧
    (createContact db ns c1 s).2.log =
      s.log ++ [Event.CreateContact
        ⟨c1.FirstName, c1.LastName, c1.Nickname, c1.Email, c1.Pronouns, ns⟩
        (errOf (db.CreateContact s.log
          ⟨c1.FirstName, c1.LastName, c1.Nickname, c1.Email, c1.Pronouns, ns⟩))] ∧
    (createJournalEntry db ns j1 s).2.log = (createJournalEntry db ns j2 s).2.log ∧
    (createJournalEntry db ns j1 s).1 = (createJournalEntry db ns j2 s).1 ∧
    createContact db ns c1 s = createContact db ns c2 s := by
  obtain ⟨hj1, hj2, hj3⟩ := hj
  obtain ⟨hc1, hc2, hc3, hc4, hc5⟩ := hc
  have hjlog : ∀ j : ExportedJournalEntry, (createJournalEntry db ns j s).2.log =
      s.log ++ [Event.CreateJournalEntry ⟨j.Title, j.Body, j.Rating, ns⟩
        (errOf (db.CreateJournalEntry s.log ⟨j.Title, j.Body, j.Rating, ns⟩))] := by
    intro j
    simp only [createJournalEntry]
    cases db.CreateJournalEntry s.log ⟨j.Title, j.Body, j.Rating, ns⟩ <;> rfl
  have hjerr : ∀ j : ExportedJournalEntry, (createJournalEntry db ns j s).1 =
      errOf (db.CreateJournalEntry s.log ⟨j.Title, j.Body, j.Rating, ns⟩) := by
    intro j
    simp only [createJournalEntry]
    cases db.CreateJournalEntry s.log ⟨j.Title, j.Body, j.Rating, ns⟩ <;> rfl
  have hclog : ∀ c : ExportedContact, (createContact db ns c s).2.log =
      s.log ++ [Event.CreateContact
        ⟨c.FirstName, c.LastName, c.Nickname, c.Email, c.Pronouns, ns⟩
        (errOf (db.CreateContact s.log
          ⟨c.FirstName, c.LastName, c.Nickname, c.Email, c.Pronouns, ns⟩))] := by
    intro c
    simp only [createContact]
    cases db.CreateContact s.log
      ⟨c.FirstName, c.LastName, c.Nickname, c.Email, c.Pronouns, ns⟩ <;> rfl
  refine ⟨hjlog j1, hclog c1, ?_, ?_, ?_⟩
  · rw [hjlog j1, hjlog j2, hj1, hj2, hj3]
  · rw [hjerr j1, hjerr j2, hj1, hj2, hj3]
  · simp only [createContact, hc1, hc2, hc3, hc4, hc5]

/-- C18 at the journal entry 7 and a copy with another `ID`, `Namespace` and `Date`, and
at the contact 7 and a copy with another `ID`, `Namespace`, `Birthday`, `Address` and
`Notes`, in an import into `alice2@example.com`. -/
theorem sinks_insert_fixed_fields_witness :
    (createJournalEntry freshDB "alice2@example.com" journal7 ⟨[], [Event.Begin none]⟩).2.log =
      [Event.Begin none,
        Event.CreateJournalEntry ⟨"Monday", "", 3, "alice2@example.com"⟩ none] ∧
    (createContact freshDB "alice2@example.com" contact7 ⟨[], [Event.Begin none]⟩).2.log =
      [Event.Begin none,
        Event.CreateContact ⟨"Bob", "", "", "", "", "alice2@example.com"⟩ none] ∧
    (createJournalEntry freshDB "alice2@example.com" journal7 ⟨[], [Event.Begin none]⟩).2.log =
      (createJournalEntry freshDB "alice2@example.com"
        { journal7 with ID := 9, Namespace := "mallory@example.com", Date := ⟨5⟩ }
        ⟨[], [Event.Begin none]⟩).2.log ∧
    (createJournalEntry freshDB "alice2@example.com" journal7 ⟨[], [Event.Begin none]⟩).1 =
      (createJournalEntry freshDB "alice2@example.com"
        { journal7 with ID := 9, Namespace := "mallory@example.com", Date := ⟨5⟩ }
        ⟨[], [Event.Begin none]⟩).1 ∧
    createContact freshDB "alice2@example.com" contact7 ⟨[], [Event.Begin none]⟩ =
      createContact freshDB "alice2@example.com"
        { contact7 with
          ID := 8, Namespace := "mallory@example.com", Birthday := some ⟨1⟩,
          Address := "1 Main St", Notes := "met in May" }
        ⟨[], [Event.Begin none]⟩ :=
  sinks_insert_fixed_fields freshDB "alice2@example.com" ⟨[], [Event.Begin none]⟩ journal7
    { journal7 with ID := 9, Namespace := "mallory@example.com", Date := ⟨5⟩ } contact7
    { contact7 with
      ID := 8, Namespace := "mallory@example.com", Birthday := some ⟨1⟩,
      Address := "1 Main St", Notes := "met in May" }
    ⟨rfl, rfl, rfl⟩ ⟨rfl, rfl, rfl, rfl, rfl⟩

end Senbara
